import Mathlib

/-!
# Verification of the `rerecast` navmesh-generation glue

Shallow embedding of the `bevy_rerecast` crates (generator orchestration,
regeneration queues, task polling, and persisted encodings) together with
proofs of the specification claims about them.

Scalar convention: the Rust `f32` scalars are modelled as exact rationals
(`ℚ`); machine integers (`u16`, `u32`, `usize`) are modelled as `ℕ`.
The algorithmic core crate `rerecast` (heightfield, compact heightfield,
regions, contours, polygon and detail mesh internals) is not part of the
repository sources; its stage functions are therefore abstract parameters
of the embedding (`PipelineImpl`), and the data types it exports are
modelled from the specification (§3 of the spec).
-/

/-- A 3-component vector over an arbitrary component type.
`glam::Vec3` / `Vec3A` is `Vect3 ℚ`, `glam::U16Vec3` is `Vect3 ℕ`. -/
structure Vect3 (α : Type) where
  x : α
  y : α
  z : α

deriving DecidableEq

/-- Model of `glam::Vec3` / `Vec3A` (f32 components as exact rationals). -/
abbrev Vec3 := Vect3 ℚ

/-- Model of `glam::U16Vec3` (u16 components as naturals). -/
abbrev U16Vec3 := Vect3 ℕ

/-- `Vec3::X`. -/
def Vec3.unitX : Vec3 := ⟨1, 0, 0⟩

/-- `Vec3::Y`. -/
def Vec3.unitY : Vec3 := ⟨0, 1, 0⟩

/-- `Vec3::Z`. -/
def Vec3.unitZ : Vec3 := ⟨0, 0, 1⟩

/-- The inbound component permutation `generate_navmesh` applies to input
vertices and the AABB when `settings.up == Vec3::Z`
(`Vec3A::new(vertex.y, vertex.z, vertex.x)` in `generator.rs`). -/
def remap_in_z {α : Type} (v : Vect3 α) : Vect3 α := ⟨v.y, v.z, v.x⟩

/-- The inbound component permutation for `settings.up == Vec3::X`
(`Vec3A::new(vertex.z, vertex.x, vertex.y)` in `generator.rs`). -/
def remap_in_x {α : Type} (v : Vect3 α) : Vect3 α := ⟨v.z, v.x, v.y⟩

/-- The outbound component permutation `generate_navmesh` applies to output
polygon vertices, detail vertices and the AABB when `settings.up == Vec3::Z`
(`U16Vec3::new(vertex.z, vertex.x, vertex.y)` in `generator.rs`). -/
def remap_out_z {α : Type} (v : Vect3 α) : Vect3 α := ⟨v.z, v.x, v.y⟩

/-- The outbound component permutation for `settings.up == Vec3::X`
(`U16Vec3::new(vertex.y, vertex.z, vertex.x)` in `generator.rs`). -/
def remap_out_x {α : Type} (v : Vect3 α) : Vect3 α := ⟨v.y, v.z, v.x⟩

/-- Model of `rerecast::Aabb3d`: min/max corner pair. -/
structure Aabb3d where
  min : Vec3
  max : Vec3

deriving DecidableEq

/-- `Aabb3d::default()`: both corners at the origin (derived `Default`
zero-initializes; modelled from the spec, the type lives in the absent
`rerecast` crate). -/
def Aabb3d.default : Aabb3d := ⟨⟨0, 0, 0⟩, ⟨0, 0, 0⟩⟩

/-- Model of `rerecast::TriMesh` (spec §3): vertex positions, triangles as
vertex-index triples, and a per-triangle area/walkability flag. -/
structure TriMesh where
  vertices : List Vec3
  triangles : List (ℕ × ℕ × ℕ)
  areas : List ℕ

deriving DecidableEq

/-- `TriMesh::default()`: the empty mesh. -/
def TriMesh.default : TriMesh := ⟨[], [], []⟩

/-- `TriMesh::extend`: concatenates vertex/triangle buffers with index-offset
correction (spec §4.1). -/
def TriMesh.extend (a b : TriMesh) : TriMesh :=
  { vertices := a.vertices ++ b.vertices
    triangles :=
      a.triangles ++ b.triangles.map
        (fun t =>
          (t.1 + a.vertices.length, t.2.1 + a.vertices.length, t.2.2 + a.vertices.length))
    areas := a.areas ++ b.areas }

/-- Componentwise minimum of two vectors. -/
def Vec3.cmin (a b : Vec3) : Vec3 := ⟨min a.x b.x, min a.y b.y, min a.z b.z⟩

/-- Componentwise maximum of two vectors. -/
def Vec3.cmax (a b : Vec3) : Vec3 := ⟨max a.x b.x, max a.y b.y, max a.z b.z⟩

/-- Modelled from the spec: `TriMesh::compute_aabb` of the absent `rerecast`
crate. "Degenerate input (zero triangles) propagates to AABB computation,
which must fail explicitly" (spec §4.1), so the computation fails exactly on
a trimesh with zero triangles and otherwise folds the componentwise min/max
over the vertices. -/
def TriMesh.compute_aabb (tm : TriMesh) : Option Aabb3d :=
  match tm.triangles with
  | [] => none
  | _ =>
    match tm.vertices with
    | [] => some ⟨⟨0, 0, 0⟩, ⟨0, 0, 0⟩⟩
    | v :: rest =>
      some ⟨rest.foldl Vec3.cmin v, rest.foldl Vec3.cmax v⟩

/-- Model of a rigid world transform: `GlobalTransform::compute_transform`
followed by `Transform::transform_point` is abstracted as an arbitrary map on
points. -/
abbrev WorldTransform := Vec3 → Vec3

/-- A convex area-override volume (spec §4.4 / §6 `area_volumes`). -/
structure AreaVolume where
  vertices : List Vec3
  min_y : ℚ
  max_y : ℚ
  area : ℕ

deriving DecidableEq

/-- Model of `NavmeshSettings` (the settings record of spec §6; the type
itself lives outside `src/`, its fields are modelled from the spec). -/
structure NavmeshSettings where
  cell_size_fraction : ℚ
  cell_height_fraction : ℚ
  walkable_slope_angle : ℚ
  agent_radius : ℚ
  agent_height : ℚ
  walkable_climb : ℚ
  min_region_size : ℕ
  merge_region_size : ℕ
  border_size : ℕ
  edge_max_len_factor : ℚ
  max_simplification_error : ℚ
  max_vertices_per_polygon : ℕ
  detail_sample_dist : ℚ
  detail_sample_max_error : ℚ
  aabb : Option Aabb3d
  area_volumes : List AreaVolume
  up : Vec3
  tile_size : Option ℕ

deriving DecidableEq

/-- Model of `rerecast::PolygonNavmesh` (spec §3): convex polygons over a
shared vertex pool, per-edge neighbor references, per-polygon region and
area ids, plus the grid parameters. -/
structure PolygonNavmesh where
  vertices : List U16Vec3
  polygons : List (List ℕ)
  neighbors : List (List (Option ℕ))
  regions : List ℕ
  areas : List ℕ
  aabb : Aabb3d
  cell_size : ℚ
  cell_height : ℚ
  max_vertices_per_polygon : ℕ

deriving DecidableEq

/-- Model of `rerecast::DetailNavmesh` (spec §3): per-polygon sub-mesh
ranges over its own vertex and triangle pools. -/
structure DetailNavmesh where
  meshes : List (ℕ × ℕ × ℕ × ℕ)
  vertices : List Vec3
  triangles : List (ℕ × ℕ × ℕ)

deriving DecidableEq

/-- Model of `bevy_rerecast_core::Navmesh` (`lib.rs`): the exported
aggregate of polygon mesh, detail mesh and the generating settings. -/
structure Navmesh where
  polygon : PolygonNavmesh
  detail : DetailNavmesh
  settings : NavmeshSettings

deriving DecidableEq

/-- Model of the `rerecast::NavmeshConfig` the generator reads
(fields as consumed in `generator.rs`). -/
structure NavmeshConfig where
  aabb : Aabb3d
  cell_size : ℚ
  cell_height : ℚ
  walkable_slope_angle : ℚ
  walkable_climb : ℚ
  walkable_height : ℚ
  walkable_radius : ℚ
  area_volumes : List AreaVolume
  border_size : ℕ
  min_region_area : ℕ
  merge_region_area : ℕ
  max_simplification_error : ℚ
  max_edge_len : ℚ
  contour_flags : ℕ
  max_vertices_per_polygon : ℕ
  detail_sample_dist : ℚ
  detail_sample_max_error : ℚ

deriving DecidableEq

/-- Modelled from the spec: `NavmeshSettings::into_rerecast_config` of the
absent `rerecast`/settings code. Cell sizes are fractions of the agent
dimensions (spec §6); an absent `aabb` maps to the default (zero) AABB,
matching the `config_builder.aabb == Aabb3d::default()` probe in
`generator.rs`. -/
def NavmeshSettings.into_rerecast_config (s : NavmeshSettings) : NavmeshConfig :=
  { aabb := s.aabb.getD Aabb3d.default
    cell_size := s.cell_size_fraction * s.agent_radius
    cell_height := s.cell_height_fraction * s.agent_height
    walkable_slope_angle := s.walkable_slope_angle
    walkable_climb := s.walkable_climb
    walkable_height := s.agent_height
    walkable_radius := s.agent_radius
    area_volumes := s.area_volumes
    border_size := s.border_size
    min_region_area := s.min_region_size
    merge_region_area := s.merge_region_size
    max_simplification_error := s.max_simplification_error
    max_edge_len := s.edge_max_len_factor
    contour_flags := 0
    max_vertices_per_polygon := s.max_vertices_per_polygon
    detail_sample_dist := s.detail_sample_dist
    detail_sample_max_error := s.detail_sample_max_error }

/-- Instrumentation tags recording which operation `generate_navmesh` invokes,
in source order (`generator.rs` lines 146-299). -/
inductive Step where
  | mergeAffector
  | markWalkable
  | buildHeightfield
  | rasterize
  | filterLowHanging
  | filterLedge
  | filterLowHeight
  | buildCompact
  | erode
  | markArea
  | distanceField
  | buildRegions
  | buildContours
  | polygonMesh
  | detailMesh

deriving DecidableEq

/-- Errors of the modelled `generate_navmesh` (the source propagates
`anyhow`/`BevyError` values; each is tagged by its origin). -/
inductive GenError where
  | unsupported_up (up : Vec3)
  | empty_trimesh_aabb
  | heightfield_build
  | rasterize_failed
  | into_compact_failed
  | build_regions_failed
  | polygon_mesh_failed
  | detail_mesh_failed

deriving DecidableEq

/-- Modelled from the spec: the stage functions of the absent `rerecast`
core crate (heightfield building/rasterization, span filters, compact
heightfield, regions, contours, polygon and detail meshes, spec §4.2-§4.8).
Their internals are unavailable, so they are abstract fields; `generate_navmesh`
below is proved for every implementation of them. Fallible stages return
`Option`, matching the `?`-propagated results in `generator.rs`. -/
structure PipelineImpl where
  Heightfield : Type
  CompactHeightfield : Type
  ContourSet : Type
  mark_walkable_triangles : TriMesh → ℚ → TriMesh
  heightfield_build : Aabb3d → ℚ → ℚ → Option Heightfield
  rasterize_triangles : Heightfield → TriMesh → ℚ → Option Heightfield
  filter_low_hanging_walkable_obstacles : Heightfield → ℚ → Heightfield
  filter_ledge_spans : Heightfield → ℚ → ℚ → Heightfield
  filter_walkable_low_height_spans : Heightfield → ℚ → Heightfield
  into_compact : Heightfield → ℚ → ℚ → Option CompactHeightfield
  erode_walkable_area : CompactHeightfield → ℚ → CompactHeightfield
  mark_convex_poly_area : CompactHeightfield → AreaVolume → CompactHeightfield
  build_distance_field : CompactHeightfield → CompactHeightfield
  build_regions : CompactHeightfield → ℕ → ℕ → ℕ → Option CompactHeightfield
  build_contours : CompactHeightfield → ℚ → ℚ → ℕ → ContourSet
  into_polygon_mesh : ContourSet → ℕ → Option PolygonNavmesh
  detail_navmesh_new :
    PolygonNavmesh → CompactHeightfield → ℚ → ℚ → Option DetailNavmesh

/-- The affector-merge loop of `generate_navmesh` (`generator.rs` lines
150-157): applies each world transform to the affector's vertices and
extends the accumulated trimesh. -/
def merge_affectors (affectors : List (WorldTransform × TriMesh)) : TriMesh :=
  affectors.foldl
    (fun acc p => acc.extend { p.2 with vertices := p.2.vertices.map p.1 })
    TriMesh.default

/-- The AABB-resolution block of `generate_navmesh` (`generator.rs` lines
181-186): if the configured AABB is the default one, derive it from the
trimesh, failing on an empty trimesh. -/
def resolve_aabb (cb : NavmeshConfig) (trimesh : TriMesh) : Option NavmeshConfig :=
  if cb.aabb = Aabb3d.default then
    match trimesh.compute_aabb with
    | some bb => some { cb with aabb := bb }
    | none => none
  else some cb

/-- The inbound AABB remap of `generate_navmesh` (`generator.rs` lines
187-206): permutes the AABB corners into the Y-up frame, rejecting a
non-canonical `up`. -/
def remap_config_in (up : Vec3) (cb : NavmeshConfig) : Option NavmeshConfig :=
  if up = Vec3.unitY then some cb
  else if up = Vec3.unitZ then
    some { cb with aabb := ⟨remap_in_z cb.aabb.min, remap_in_z cb.aabb.max⟩ }
  else if up = Vec3.unitX then
    some { cb with aabb := ⟨remap_in_x cb.aabb.min, remap_in_x cb.aabb.max⟩ }
  else none

/-- The outbound remap of `generate_navmesh` (`generator.rs` lines 265-296):
permutes polygon vertices, detail vertices and the polygon AABB back into the
configured frame, rejecting a non-canonical `up`. -/
def remap_navmesh_out (up : Vec3) (nm : Navmesh) : Option Navmesh :=
  if up = Vec3.unitY then some nm
  else if up = Vec3.unitZ then
    some { nm with
      polygon := { nm.polygon with
        vertices := nm.polygon.vertices.map remap_out_z
        aabb := ⟨remap_out_z nm.polygon.aabb.min, remap_out_z nm.polygon.aabb.max⟩ }
      detail := { nm.detail with vertices := nm.detail.vertices.map remap_out_z } }
  else if up = Vec3.unitX then
    some { nm with
      polygon := { nm.polygon with
        vertices := nm.polygon.vertices.map remap_out_x
        aabb := ⟨remap_out_x nm.polygon.aabb.min, remap_out_x nm.polygon.aabb.max⟩ }
      detail := { nm.detail with vertices := nm.detail.vertices.map remap_out_x } }
  else none

/-- The stage sequence of `generate_navmesh` from
`mark_walkable_triangles` through `DetailNavmesh::new` (`generator.rs` lines
210-258), instrumented with a `Step` trace. -/
def run_pipeline (impl : PipelineImpl) (config : NavmeshConfig) (trimesh : TriMesh)
    (tr : List Step) : Except GenError (PolygonNavmesh × DetailNavmesh) × List Step :=
  let trimesh := impl.mark_walkable_triangles trimesh config.walkable_slope_angle
  let tr := tr ++ [Step.markWalkable, Step.buildHeightfield]
  match impl.heightfield_build config.aabb config.cell_size config.cell_height with
  | none => (.error .heightfield_build, tr)
  | some hf =>
    let tr := tr ++ [Step.rasterize]
    match impl.rasterize_triangles hf trimesh config.walkable_climb with
    | none => (.error .rasterize_failed, tr)
    | some hf =>
      let hf := impl.filter_low_hanging_walkable_obstacles hf config.walkable_climb
      let hf := impl.filter_ledge_spans hf config.walkable_height config.walkable_climb
      let hf := impl.filter_walkable_low_height_spans hf config.walkable_height
      let tr := tr ++
        [Step.filterLowHanging, Step.filterLedge, Step.filterLowHeight, Step.buildCompact]
      match impl.into_compact hf config.walkable_height config.walkable_climb with
      | none => (.error .into_compact_failed, tr)
      | some chf =>
        let chf := impl.erode_walkable_area chf config.walkable_radius
        let chf := config.area_volumes.foldl (fun c v => impl.mark_convex_poly_area c v) chf
        let chf := impl.build_distance_field chf
        let tr := tr ++ [Step.erode] ++
          List.replicate config.area_volumes.length Step.markArea ++
          [Step.distanceField, Step.buildRegions]
        match impl.build_regions chf config.border_size config.min_region_area
            config.merge_region_area with
        | none => (.error .build_regions_failed, tr)
        | some chf =>
          let contours := impl.build_contours chf config.max_simplification_error
            config.max_edge_len config.contour_flags
          let tr := tr ++ [Step.buildContours, Step.polygonMesh]
          match impl.into_polygon_mesh contours config.max_vertices_per_polygon with
          | none => (.error .polygon_mesh_failed, tr)
          | some pm =>
            let tr := tr ++ [Step.detailMesh]
            match impl.detail_navmesh_new pm chf config.detail_sample_dist
                config.detail_sample_max_error with
            | none => (.error .detail_mesh_failed, tr)
            | some dm => (.ok (pm, dm), tr)

/-- The tail of `generate_navmesh` after the inbound vertex remap:
config building, AABB resolution and remap, pipeline, and outbound remap. -/
def generate_after_up (impl : PipelineImpl) (up : Vec3) (settings : NavmeshSettings)
    (trimesh : TriMesh) (tr : List Step) : Except GenError Navmesh × List Step :=
  let cb := settings.into_rerecast_config
  match resolve_aabb cb trimesh with
  | none => (.error .empty_trimesh_aabb, tr)
  | some cb =>
    match remap_config_in up cb with
    | none => (.error (.unsupported_up up), tr)
    | some cb =>
      match run_pipeline impl cb trimesh tr with
      | (.error e, tr) => (.error e, tr)
      | (.ok (pm, dm), tr) =>
        match remap_navmesh_out up { polygon := pm, detail := dm, settings := settings } with
        | none => (.error (.unsupported_up up), tr)
        | some nm => (.ok nm, tr)

/-- Embedding of `generate_navmesh` (`generator.rs` lines 146-299), paired
with the instrumentation trace of the operations it performs. The affectors
are merged first, then the inbound vertex remap (or the invalid-`up` error)
happens, then the rest of the generation runs. -/
def generate_navmesh (impl : PipelineImpl) (affectors : List (WorldTransform × TriMesh))
    (settings : NavmeshSettings) : Except GenError Navmesh × List Step :=
  let trimesh := merge_affectors affectors
  let tr := List.replicate affectors.length Step.mergeAffector
  if settings.up = Vec3.unitY then
    generate_after_up impl settings.up settings trimesh tr
  else if settings.up = Vec3.unitZ then
    generate_after_up impl settings.up settings
      { trimesh with vertices := trimesh.vertices.map remap_in_z } tr
  else if settings.up = Vec3.unitX then
    generate_after_up impl settings.up settings
      { trimesh with vertices := trimesh.vertices.map remap_in_x } tr
  else (.error (.unsupported_up settings.up), tr)

/-- A concrete polygon mesh value used to instantiate the abstract pipeline
in witnesses. -/
def polyMesh0 : PolygonNavmesh :=
  { vertices := [⟨1, 2, 3⟩]
    polygons := [[0]]
    neighbors := [[none]]
    regions := [0]
    areas := [1]
    aabb := ⟨⟨0, 0, 0⟩, ⟨1, 1, 1⟩⟩
    cell_size := 1
    cell_height := 1
    max_vertices_per_polygon := 6 }

/-- A concrete detail mesh value used to instantiate the abstract pipeline
in witnesses. -/
def detailMesh0 : DetailNavmesh :=
  { meshes := [(0, 1, 0, 1)]
    vertices := [⟨0, 0, 0⟩]
    triangles := [(0, 0, 0)] }

/-- A total instantiation of the abstract pipeline stages, used to evaluate
the generator on concrete inputs in witnesses. -/
def trivialImpl : PipelineImpl :=
  { Heightfield := Unit
    CompactHeightfield := Unit
    ContourSet := Unit
    mark_walkable_triangles := fun tm _ => tm
    heightfield_build := fun _ _ _ => some ()
    rasterize_triangles := fun _ _ _ => some ()
    filter_low_hanging_walkable_obstacles := fun h _ => h
    filter_ledge_spans := fun h _ _ => h
    filter_walkable_low_height_spans := fun h _ => h
    into_compact := fun _ _ _ => some ()
    erode_walkable_area := fun c _ => c
    mark_convex_poly_area := fun c _ => c
    build_distance_field := fun c => c
    build_regions := fun _ _ _ _ => some ()
    build_contours := fun _ _ _ _ => ()
    into_polygon_mesh := fun _ _ => some polyMesh0
    detail_navmesh_new := fun _ _ _ _ => some detailMesh0 }

/-- Baseline settings for concrete evaluations: Y-up, explicit non-default
AABB, no area volumes. -/
def settings0 : NavmeshSettings :=
  { cell_size_fraction := 1
    cell_height_fraction := 1
    walkable_slope_angle := 45
    agent_radius := 5
    agent_height := 2
    walkable_climb := 1
    min_region_size := 8
    merge_region_size := 20
    border_size := 0
    edge_max_len_factor := 1
    max_simplification_error := 1
    max_vertices_per_polygon := 6
    detail_sample_dist := 1
    detail_sample_max_error := 1
    aabb := some ⟨⟨0, 0, 0⟩, ⟨1, 1, 1⟩⟩
    area_volumes := []
    up := Vec3.unitY
    tile_size := none }

/-- A one-triangle affector used in concrete evaluations. -/
def affector0 : WorldTransform × TriMesh :=
  (fun v => v, { vertices := [⟨0, 0, 0⟩, ⟨1, 0, 0⟩, ⟨0, 0, 1⟩]
                 triangles := [(0, 1, 2)]
                 areas := [1] })

deriving instance DecidableEq for Except

/-- The full navmesh corresponding to `trivialImpl` on the baseline inputs. -/
def nav0 : Navmesh := { polygon := polyMesh0, detail := detailMesh0, settings := settings0 }

/-- The suffix of the instrumentation trace contributed by the pipeline
stages, for a config with `n` area volumes. -/
def pipeline_trace (n : ℕ) : List Step :=
  [Step.markWalkable, Step.buildHeightfield, Step.rasterize, Step.filterLowHanging,
   Step.filterLedge, Step.filterLowHeight, Step.buildCompact, Step.erode] ++
  List.replicate n Step.markArea ++
  [Step.distanceField, Step.buildRegions, Step.buildContours, Step.polygonMesh,
   Step.detailMesh]

/-- A single area volume used in concrete evaluations. -/
def vol0 : AreaVolume := { vertices := [⟨0, 0, 0⟩], min_y := 0, max_y := 1, area := 2 }

/-- `settings0` with one area volume. -/
def settingsVol : NavmeshSettings := { settings0 with area_volumes := [vol0] }

/-- The navmesh produced by `trivialImpl` under `settingsVol`. -/
def navVol : Navmesh := { polygon := polyMesh0, detail := detailMesh0, settings := settingsVol }

/-- The instrumentation trace of the successful run under `settingsVol`. -/
def traceVol : List Step :=
  [Step.mergeAffector, Step.markWalkable, Step.buildHeightfield, Step.rasterize,
   Step.filterLowHanging, Step.filterLedge, Step.filterLowHeight, Step.buildCompact,
   Step.erode, Step.markArea, Step.distanceField, Step.buildRegions, Step.buildContours,
   Step.polygonMesh, Step.detailMesh]

/-- Settings with a non-canonical up vector. -/
def settingsBadUp : NavmeshSettings := { settings0 with up := ⟨1, 1, 0⟩ }

/-- `settings0` with an explicit AABB equal to the default (zero) AABB. -/
def settingsDefaultAabb : NavmeshSettings := { settings0 with aabb := some Aabb3d.default }

/-- `settings0` without an explicit AABB. -/
def settingsNoAabb : NavmeshSettings := { settings0 with aabb := none }

/-- Completion state of a spawned generation task: `running` models a
pending `Task<Result<Navmesh>>` holding the captured affectors and input;
`done` a completed future. -/
inductive TaskState where
  | running (affectors : List (WorldTransform × TriMesh)) (input : NavmeshSettings)
  | done (result : Except GenError Navmesh)

/-- Keys of an id-keyed association list (models `HashMap::keys`). -/
def kv_keys {α : Type} (l : List (ℕ × α)) : List ℕ := l.map Prod.fst

/-- Lookup in an id-keyed association list (models `HashMap::get`). -/
def kv_lookup {α : Type} (l : List (ℕ × α)) (k : ℕ) : Option α :=
  (l.find? (fun p => decide (p.1 = k))).map Prod.snd

/-- Insert in an id-keyed association list with `HashMap::insert` semantics:
replaces the entry when the key is present, appends otherwise. -/
def kv_insert {α : Type} (l : List (ℕ × α)) (k : ℕ) (v : α) : List (ℕ × α) :=
  if k ∈ kv_keys l then l.map (fun p => if p.1 = k then (k, v) else p)
  else l ++ [(k, v)]

/-- The ECS state touched by the generator systems: the pending request
queue (`NavmeshQueue`), the in-flight task queue (`NavmeshTaskQueue`), the
`Assets<Navmesh>` collection, and the optional `NavmeshAffectorBackend`
(modelled as a function from the request settings to either an error or the
collected affectors, covering both `run_system_with` failure and success). -/
structure World where
  queue : List (ℕ × NavmeshSettings)
  tasks : List (ℕ × TaskState)
  navmeshes : List (ℕ × Navmesh)
  backend : Option (NavmeshSettings → Except ℕ (List (WorldTransform × TriMesh)))

/-- Embedding of `NavmeshGenerator::regenerate` (`generator.rs` lines
55-71): returns `false` and leaves the state unchanged when the id is
already in the pending queue or the task queue, otherwise inserts the
request into the pending queue and returns `true`. -/
def regenerate (w : World) (id : ℕ) (settings : NavmeshSettings) : Bool × World :=
  if id ∈ kv_keys w.queue ++ kv_keys w.tasks then (false, w)
  else (true, { w with queue := kv_insert w.queue id settings })

/-- The uniqueness invariant of the two `HashMap`-backed queues: an id
occurs at most once across the pending queue and the task queue. -/
def World.WF (w : World) : Prop := (kv_keys w.queue ++ kv_keys w.tasks).Nodup

/-- The asset insertion step of `poll_tasks` phase one (`generator.rs` lines
120-134): a completed `Ok` task inserts its navmesh into `Assets<Navmesh>`;
errors and still-running tasks insert nothing. -/
def insert_done_ok (acc : List (ℕ × Navmesh)) (p : ℕ × TaskState) : List (ℕ × Navmesh) :=
  match p.2 with
  | .done (.ok nm) => kv_insert acc p.1 nm
  | _ => acc

/-- Whether `future::poll_once` yields a result for the task. -/
def is_finished : TaskState → Bool
  | .running _ _ => false
  | .done _ => true

/-- The removal/trigger step of `poll_tasks` phase two (`generator.rs` lines
135-139): remove the id from the task queue, and if it was present, trigger
`NavmeshReady` (append the id to the event list). -/
def remove_step (acc : List (ℕ × TaskState) × List ℕ) (id : ℕ) :
    List (ℕ × TaskState) × List ℕ :=
  if id ∈ kv_keys acc.1 then
    (acc.1.filter (fun p => decide (p.1 ≠ id)), acc.2 ++ [id])
  else acc

/-- Embedding of `poll_tasks` (`generator.rs` lines 114-140): the first loop
collects completed ids and inserts `Ok` navmeshes into the asset collection;
the second loop removes each completed id from the task queue and triggers
`NavmeshReady` for it. Returns the updated world and the list of triggered
`NavmeshReady` ids. -/
def poll_tasks (w : World) : World × List ℕ :=
  let removed_ids :=
    w.tasks.filterMap (fun p => if is_finished p.2 then some p.1 else none)
  let navmeshes := w.tasks.foldl insert_done_ok w.navmeshes
  let r := removed_ids.foldl remove_step (w.tasks, [])
  ({ w with tasks := r.1, navmeshes := navmeshes }, r.2)

/-- A concrete world with one errored task and an existing asset entry. -/
def world7 : World :=
  { queue := []
    tasks := [(3, TaskState.done (.error .rasterize_failed))]
    navmeshes := [(3, nav0)]
    backend := none }

/-- A concrete world with one completed-with-error task. -/
def world9 : World :=
  { queue := []
    tasks := [(5, TaskState.done (.error .build_regions_failed))]
    navmeshes := []
    backend := none }

/-- The per-request loop body of `drain_queue_into_tasks` (`generator.rs`
lines 90-111): for each drained request, if the backend resource is missing
the function returns; if running the backend system fails it returns;
otherwise it spawns a `generate_navmesh` task (captured affectors and
input) into the task queue and continues. -/
def drain_go (w : World) : List (ℕ × NavmeshSettings) → World
  | [] => w
  | (id, input) :: rest =>
    match w.backend with
    | none => w
    | some backend =>
      match backend input with
      | .error _ => w
      | .ok affectors =>
        drain_go { w with tasks := kv_insert w.tasks id (.running affectors input) } rest

/-- Embedding of `drain_queue_into_tasks` (`generator.rs` lines 80-112):
`std::mem::take` empties the pending queue up front, then the drained
requests are processed one by one. -/
def drain_queue_into_tasks (w : World) : World :=
  drain_go { w with queue := [] } w.queue

/-- A backend that errors on `settingsNoAabb` and succeeds elsewhere. -/
def backend10 : NavmeshSettings → Except ℕ (List (WorldTransform × TriMesh)) :=
  fun s => if s = settingsNoAabb then .error 7 else .ok []

/-- A concrete world whose pending queue holds a succeeding request, the
failing request, and one discarded request. -/
def world10 : World :=
  { queue := [(1, settings0), (2, settingsNoAabb), (4, settingsVol)]
    tasks := []
    navmeshes := []
    backend := some backend10 }

/-- A concrete generator state for the C6 witness. -/
def world6 : World :=
  { queue := [(1, settings0)]
    tasks := [(2, TaskState.done (.ok nav0))]
    navmeshes := []
    backend := none }

/-- Modelled from the spec: the "length-prefixed binary encoding (standard
config)" used for persistence (spec §6) — a little-endian base-128 varint
for unsigned integers. Produces bytes (values `< 256`). -/
def enc_nat (n : ℕ) : List ℕ :=
  if n < 128 then [n]
  else (n % 128 + 128) :: enc_nat (n / 128)
decreasing_by omega

/-- Varint decoder; returns the value and the unconsumed bytes. -/
def dec_nat : List ℕ → Option (ℕ × List ℕ)
  | [] => none
  | b :: rest =>
    if b < 128 then some (b, rest)
    else
      match dec_nat rest with
      | some (m, r) => some (m * 128 + (b - 128), r)
      | none => none

/-- Signed integers: a sign byte followed by the magnitude varint. -/
def enc_int (i : ℤ) : List ℕ :=
  (if i < 0 then 1 else 0) :: enc_nat i.natAbs

/-- Signed integer decoder. -/
def dec_int : List ℕ → Option (ℤ × List ℕ)
  | [] => none
  | s :: rest =>
    match dec_nat rest with
    | some (m, r) => some (if s = 1 then -(m : ℤ) else (m : ℤ), r)
    | none => none

/-- Rationals (the exact model of the `f32` scalars): numerator then
denominator. -/
def enc_rat (q : ℚ) : List ℕ := enc_int q.num ++ enc_nat q.den

/-- Rational decoder. -/
def dec_rat (l : List ℕ) : Option (ℚ × List ℕ) :=
  match dec_int l with
  | some (n, r) =>
    match dec_nat r with
    | some (d, r2) => some (mkRat n d, r2)
    | none => none
  | none => none

/-- Concatenated encodings of the elements of a list. -/
def enc_all {α : Type} (enc : α → List ℕ) : List α → List ℕ
  | [] => []
  | a :: rest => enc a ++ enc_all enc rest

/-- Reads `k` consecutive elements. -/
def dec_count {α : Type} (dec : List ℕ → Option (α × List ℕ)) :
    ℕ → List ℕ → Option (List α × List ℕ)
  | 0, l => some ([], l)
  | k + 1, l =>
    match dec l with
    | some (a, r) =>
      match dec_count dec k r with
      | some (as, r2) => some (a :: as, r2)
      | none => none
    | none => none

/-- A length-prefixed sequence (spec §6: "length-prefixed binary
encoding"). -/
def enc_list {α : Type} (enc : α → List ℕ) (l : List α) : List ℕ :=
  enc_nat l.length ++ enc_all enc l

/-- Length-prefixed sequence decoder. -/
def dec_list {α : Type} (dec : List ℕ → Option (α × List ℕ)) (l : List ℕ) :
    Option (List α × List ℕ) :=
  match dec_nat l with
  | some (k, r) => dec_count dec k r
  | none => none

/-- Options: a presence tag byte, then the payload. -/
def enc_option {α : Type} (enc : α → List ℕ) : Option α → List ℕ
  | none => [0]
  | some a => 1 :: enc a

/-- Option decoder. -/
def dec_option {α : Type} (dec : List ℕ → Option (α × List ℕ)) :
    List ℕ → Option (Option α × List ℕ)
  | [] => none
  | t :: rest =>
    if t = 0 then some (none, rest)
    else
      match dec rest with
      | some (a, r) => some (some a, r)
      | none => none

/-- Three rationals: a `Vec3`. -/
def enc_vec3 (v : Vec3) : List ℕ := enc_rat v.x ++ enc_rat v.y ++ enc_rat v.z

/-- `Vec3` decoder. -/
def dec_vec3 (l : List ℕ) : Option (Vec3 × List ℕ) :=
  match dec_rat l with
  | some (x, r1) =>
    match dec_rat r1 with
    | some (y, r2) =>
      match dec_rat r2 with
      | some (z, r3) =>
        some (⟨x, y, z⟩, r3)
      | none => none
    | none => none
  | none => none

/-- Three naturals: a `U16Vec3`. -/
def enc_u16vec3 (v : U16Vec3) : List ℕ := enc_nat v.x ++ enc_nat v.y ++ enc_nat v.z

/-- `U16Vec3` decoder. -/
def dec_u16vec3 (l : List ℕ) : Option (U16Vec3 × List ℕ) :=
  match dec_nat l with
  | some (x, r1) =>
    match dec_nat r1 with
    | some (y, r2) =>
      match dec_nat r2 with
      | some (z, r3) =>
        some (⟨x, y, z⟩, r3)
      | none => none
    | none => none
  | none => none

/-- A triangle index triple. -/
def enc_tri (t : ℕ × ℕ × ℕ) : List ℕ := enc_nat t.1 ++ enc_nat t.2.1 ++ enc_nat t.2.2

/-- Index triple decoder. -/
def dec_tri (l : List ℕ) : Option ((ℕ × ℕ × ℕ) × List ℕ) :=
  match dec_nat l with
  | some (a, r1) =>
    match dec_nat r1 with
    | some (b, r2) =>
      match dec_nat r2 with
      | some (c, r3) =>
        some ((a, b, c), r3)
      | none => none
    | none => none
  | none => none

/-- A detail sub-mesh quadruple. -/
def enc_tet (t : ℕ × ℕ × ℕ × ℕ) : List ℕ :=
  enc_nat t.1 ++ enc_nat t.2.1 ++ enc_nat t.2.2.1 ++ enc_nat t.2.2.2

/-- Quadruple decoder. -/
def dec_tet (l : List ℕ) : Option ((ℕ × ℕ × ℕ × ℕ) × List ℕ) :=
  match dec_nat l with
  | some (a, r1) =>
    match dec_nat r1 with
    | some (b, r2) =>
      match dec_nat r2 with
      | some (c, r3) =>
        match dec_nat r3 with
        | some (d, r4) =>
          some ((a, b, c, d), r4)
        | none => none
      | none => none
    | none => none
  | none => none

/-- An `Aabb3d`: min then max corner. -/
def enc_aabb (a : Aabb3d) : List ℕ := enc_vec3 a.min ++ enc_vec3 a.max

/-- `Aabb3d` decoder. -/
def dec_aabb (l : List ℕ) : Option (Aabb3d × List ℕ) :=
  match dec_vec3 l with
  | some (mn, r1) =>
    match dec_vec3 r1 with
    | some (mx, r2) =>
      some (⟨mn, mx⟩, r2)
    | none => none
  | none => none

/-- An `AreaVolume`: vertex list, vertical extent, area id. -/
def enc_area_volume (v : AreaVolume) : List ℕ :=
  enc_list enc_vec3 v.vertices ++ enc_rat v.min_y ++ enc_rat v.max_y ++ enc_nat v.area

/-- `AreaVolume` decoder. -/
def dec_area_volume (l : List ℕ) : Option (AreaVolume × List ℕ) :=
  match dec_list dec_vec3 l with
  | some (vs, r1) =>
    match dec_rat r1 with
    | some (mny, r2) =>
      match dec_rat r2 with
      | some (mxy, r3) =>
        match dec_nat r3 with
        | some (ar, r4) =>
          some (⟨vs, mny, mxy, ar⟩, r4)
        | none => none
      | none => none
    | none => none
  | none => none

/-- A `PolygonNavmesh`, field by field in declaration order. -/
def enc_poly (p : PolygonNavmesh) : List ℕ :=
  enc_list enc_u16vec3 p.vertices ++ enc_list (enc_list enc_nat) p.polygons ++
  enc_list (enc_list (enc_option enc_nat)) p.neighbors ++ enc_list enc_nat p.regions ++
  enc_list enc_nat p.areas ++ enc_aabb p.aabb ++ enc_rat p.cell_size ++
  enc_rat p.cell_height ++ enc_nat p.max_vertices_per_polygon

/-- `PolygonNavmesh` decoder. -/
def dec_poly (l : List ℕ) : Option (PolygonNavmesh × List ℕ) :=
  match dec_list dec_u16vec3 l with
  | some (vs, r1) =>
    match dec_list (dec_list dec_nat) r1 with
    | some (ps, r2) =>
      match dec_list (dec_list (dec_option dec_nat)) r2 with
      | some (ns, r3) =>
        match dec_list dec_nat r3 with
        | some (rs, r4) =>
          match dec_list dec_nat r4 with
          | some (ars, r5) =>
            match dec_aabb r5 with
            | some (bb, r6) =>
              match dec_rat r6 with
              | some (cs, r7) =>
                match dec_rat r7 with
                | some (ch, r8) =>
                  match dec_nat r8 with
                  | some (mv, r9) =>
                    some (⟨vs, ps, ns, rs, ars, bb, cs, ch, mv⟩, r9)
                  | none => none
                | none => none
              | none => none
            | none => none
          | none => none
        | none => none
      | none => none
    | none => none
  | none => none

/-- A `DetailNavmesh`, field by field in declaration order. -/
def enc_detail (d : DetailNavmesh) : List ℕ :=
  enc_list enc_tet d.meshes ++ enc_list enc_vec3 d.vertices ++ enc_list enc_tri d.triangles

/-- `DetailNavmesh` decoder. -/
def dec_detail (l : List ℕ) : Option (DetailNavmesh × List ℕ) :=
  match dec_list dec_tet l with
  | some (ms, r1) =>
    match dec_list dec_vec3 r1 with
    | some (vs, r2) =>
      match dec_list dec_tri r2 with
      | some (ts, r3) =>
        some (⟨ms, vs, ts⟩, r3)
      | none => none
    | none => none
  | none => none

/-- A `NavmeshSettings` record, field by field in declaration order. -/
def enc_settings (s : NavmeshSettings) : List ℕ :=
  enc_rat s.cell_size_fraction ++ enc_rat s.cell_height_fraction ++
  enc_rat s.walkable_slope_angle ++ enc_rat s.agent_radius ++ enc_rat s.agent_height ++
  enc_rat s.walkable_climb ++ enc_nat s.min_region_size ++ enc_nat s.merge_region_size ++
  enc_nat s.border_size ++ enc_rat s.edge_max_len_factor ++
  enc_rat s.max_simplification_error ++ enc_nat s.max_vertices_per_polygon ++
  enc_rat s.detail_sample_dist ++ enc_rat s.detail_sample_max_error ++
  enc_option enc_aabb s.aabb ++ enc_list enc_area_volume s.area_volumes ++
  enc_vec3 s.up ++ enc_option enc_nat s.tile_size

/-- `NavmeshSettings` decoder. -/
def dec_settings (l : List ℕ) : Option (NavmeshSettings × List ℕ) :=
  match dec_rat l with
  | some (f1, r1) =>
    match dec_rat r1 with
    | some (f2, r2) =>
      match dec_rat r2 with
      | some (f3, r3) =>
        match dec_rat r3 with
        | some (f4, r4) =>
          match dec_rat r4 with
          | some (f5, r5) =>
            match dec_rat r5 with
            | some (f6, r6) =>
              match dec_nat r6 with
              | some (f7, r7) =>
                match dec_nat r7 with
                | some (f8, r8) =>
                  match dec_nat r8 with
                  | some (f9, r9) =>
                    match dec_rat r9 with
                    | some (f10, r10) =>
                      match dec_rat r10 with
                      | some (f11, r11) =>
                        match dec_nat r11 with
                        | some (f12, r12) =>
                          match dec_rat r12 with
                          | some (f13, r13) =>
                            match dec_rat r13 with
                            | some (f14, r14) =>
                              match dec_option dec_aabb r14 with
                              | some (f15, r15) =>
                                match dec_list dec_area_volume r15 with
                                | some (f16, r16) =>
                                  match dec_vec3 r16 with
                                  | some (f17, r17) =>
                                    match dec_option dec_nat r17 with
                                    | some (f18, r18) =>
                                      some (⟨f1, f2, f3, f4, f5, f6, f7, f8, f9, f10, f11, f12, f13, f14, f15, f16, f17, f18⟩, r18)
                                    | none => none
                                  | none => none
                                | none => none
                              | none => none
                            | none => none
                          | none => none
                        | none => none
                      | none => none
                    | none => none
                  | none => none
                | none => none
              | none => none
            | none => none
          | none => none
        | none => none
      | none => none
    | none => none
  | none => none

/-- The full persisted `Navmesh`: polygon mesh, detail mesh, settings
(`lib.rs` field order). -/
def enc_navmesh (n : Navmesh) : List ℕ :=
  enc_poly n.polygon ++ enc_detail n.detail ++ enc_settings n.settings

/-- `Navmesh` decoder. -/
def dec_navmesh (l : List ℕ) : Option (Navmesh × List ℕ) :=
  match dec_poly l with
  | some (p, r1) =>
    match dec_detail r1 with
    | some (d, r2) =>
      match dec_settings r2 with
      | some (s, r3) =>
        some (⟨p, d, s⟩, r3)
      | none => none
    | none => none
  | none => none

/-- The standard base64 alphabet (RFC 4648, as used by
`base64::prelude::BASE64_STANDARD` in `serialization.rs`). -/
def b64_alphabet : List Char :=
  ['A', 'B', 'C', 'D', 'E', 'F', 'G', 'H', 'I', 'J', 'K', 'L', 'M', 'N', 'O', 'P',
   'Q', 'R', 'S', 'T', 'U', 'V', 'W', 'X', 'Y', 'Z', 'a', 'b', 'c', 'd', 'e', 'f',
   'g', 'h', 'i', 'j', 'k', 'l', 'm', 'n', 'o', 'p', 'q', 'r', 's', 't', 'u', 'v',
   'w', 'x', 'y', 'z', '0', '1', '2', '3', '4', '5', '6', '7', '8', '9', '+', '/']

/-- Alphabet character of a sextet. -/
def b64_char (i : ℕ) : Char := b64_alphabet.getD i '='

/-- Sextet of an alphabet character. -/
def b64_dec_char (c : Char) : Option ℕ := b64_alphabet.findIdx? (· == c)

/-- Standard base64 encoding of a byte sequence, with `=` padding. -/
def b64_encode : List ℕ → List Char
  | [] => []
  | [a] => [b64_char (a / 4), b64_char ((a % 4) * 16), '=', '=']
  | [a, b] =>
    [b64_char (a / 4), b64_char ((a % 4) * 16 + b / 16), b64_char ((b % 16) * 4), '=']
  | a :: b :: c :: rest =>
    b64_char (a / 4) :: b64_char ((a % 4) * 16 + b / 16) ::
      b64_char ((b % 16) * 4 + c / 64) :: b64_char (c % 64) :: b64_encode rest

/-- Standard base64 decoding. -/
def b64_decode : List Char → Option (List ℕ)
  | [] => some []
  | w :: x :: y :: z :: rest =>
    match b64_dec_char w, b64_dec_char x with
    | some dw, some dx =>
      if y = '=' ∧ z = '=' ∧ rest = [] then some [dw * 4 + dx / 16]
      else
        match b64_dec_char y with
        | some dy =>
          if z = '=' ∧ rest = [] then
            some [dw * 4 + dx / 16, (dx % 16) * 16 + dy / 4]
          else
            match b64_dec_char z with
            | some dz =>
              match b64_decode rest with
              | some tail =>
                some ((dw * 4 + dx / 16) :: ((dx % 16) * 16 + dy / 4) ::
                  ((dy % 4) * 64 + dz) :: tail)
              | none => none
            | none => none
        | none => none
    | _, _ => none
  | _ => none

/-- Model of `serde_json::Value`, the structured-text encoding read by the
`.nav` asset loader (`asset_loader.rs`); the text rendering/parsing layer is
the external `serde_json` library, modelled here at the value level. -/
inductive Json where
  | null
  | num (q : ℚ)
  | str (s : List Char)
  | arr (items : List Json)
  | obj (fields : List (String × Json))

/-- Scalar to JSON. -/
def rat_to_json (q : ℚ) : Json := .num q

/-- Scalar from JSON. -/
def rat_from_json : Json → Option ℚ
  | .num q => some q
  | _ => none

/-- Natural to JSON. -/
def nat_to_json (n : ℕ) : Json := .num (n : ℚ)

/-- Natural from JSON. -/
def nat_from_json : Json → Option ℕ
  | .num q => if q.den = 1 ∧ 0 ≤ q.num then some q.num.toNat else none
  | _ => none

/-- Option to JSON (serde convention: `None` is `null`). -/
def option_to_json {α : Type} (f : α → Json) : Option α → Json
  | none => .null
  | some a => f a

/-- Option from JSON. -/
def option_from_json {α : Type} (g : Json → Option α) : Json → Option (Option α)
  | .null => some none
  | j => (g j).map some

/-- List to JSON. -/
def list_to_json {α : Type} (f : α → Json) (l : List α) : Json := .arr (l.map f)

/-- Element-wise parser of a JSON array body. -/
def list_from_json_aux {α : Type} (g : Json → Option α) : List Json → Option (List α)
  | [] => some []
  | j :: rest =>
    match g j with
    | some a =>
      match list_from_json_aux g rest with
      | some as => some (a :: as)
      | none => none
    | none => none

/-- List from JSON. -/
def list_from_json {α : Type} (g : Json → Option α) : Json → Option (List α)
  | .arr items => list_from_json_aux g items
  | _ => none

/-- `Vec3` to JSON (a three-number array, as `glam` serializes vectors). -/
def vec3_to_json (v : Vec3) : Json := .arr [.num v.x, .num v.y, .num v.z]

/-- `Vec3` from JSON. -/
def vec3_from_json : Json → Option Vec3
  | .arr [.num x, .num y, .num z] => some ⟨x, y, z⟩
  | _ => none

/-- `U16Vec3` to JSON. -/
def u16vec3_to_json (v : U16Vec3) : Json :=
  .arr [nat_to_json v.x, nat_to_json v.y, nat_to_json v.z]

/-- `U16Vec3` from JSON. -/
def u16vec3_from_json : Json → Option U16Vec3
  | .arr [a, b, c] =>
    match nat_from_json a, nat_from_json b, nat_from_json c with
    | some x, some y, some z => some ⟨x, y, z⟩
    | _, _, _ => none
  | _ => none

/-- Index triple to JSON. -/
def tri_to_json (t : ℕ × ℕ × ℕ) : Json :=
  .arr [nat_to_json t.1, nat_to_json t.2.1, nat_to_json t.2.2]

/-- Index triple from JSON. -/
def tri_from_json : Json → Option (ℕ × ℕ × ℕ)
  | .arr [a, b, c] =>
    match nat_from_json a, nat_from_json b, nat_from_json c with
    | some x, some y, some z => some (x, y, z)
    | _, _, _ => none
  | _ => none

/-- Quadruple to JSON. -/
def tet_to_json (t : ℕ × ℕ × ℕ × ℕ) : Json :=
  .arr [nat_to_json t.1, nat_to_json t.2.1, nat_to_json t.2.2.1, nat_to_json t.2.2.2]

/-- Quadruple from JSON. -/
def tet_from_json : Json → Option (ℕ × ℕ × ℕ × ℕ)
  | .arr [a, b, c, d] =>
    match nat_from_json a, nat_from_json b, nat_from_json c, nat_from_json d with
    | some x, some y, some z, some u => some (x, y, z, u)
    | _, _, _, _ => none
  | _ => none

/-- `Aabb3d` to JSON. -/
def aabb_to_json (a : Aabb3d) : Json :=
  .obj [("min", vec3_to_json a.min), ("max", vec3_to_json a.max)]

/-- `Aabb3d` from JSON. -/
def aabb_from_json : Json → Option Aabb3d
  | .obj [(k1, j1), (k2, j2)] =>
    if k1 = "min" ∧ k2 = "max" then
      match vec3_from_json j1 with
      | some mn =>
        match vec3_from_json j2 with
        | some mx =>
          some ⟨mn, mx⟩
        | none => none
      | none => none
    else none
  | _ => none

/-- `AreaVolume` to JSON. -/
def area_volume_to_json (a : AreaVolume) : Json :=
  .obj [("vertices", list_to_json vec3_to_json a.vertices), ("min_y", rat_to_json a.min_y), ("max_y", rat_to_json a.max_y), ("area", nat_to_json a.area)]

/-- `AreaVolume` from JSON. -/
def area_volume_from_json : Json → Option AreaVolume
  | .obj [(k1, j1), (k2, j2), (k3, j3), (k4, j4)] =>
    if k1 = "vertices" ∧ k2 = "min_y" ∧ k3 = "max_y" ∧ k4 = "area" then
      match list_from_json vec3_from_json j1 with
      | some vs =>
        match rat_from_json j2 with
        | some mny =>
          match rat_from_json j3 with
          | some mxy =>
            match nat_from_json j4 with
            | some ar =>
              some ⟨vs, mny, mxy, ar⟩
            | none => none
          | none => none
        | none => none
      | none => none
    else none
  | _ => none

/-- `PolygonNavmesh` to JSON. -/
def poly_to_json (p : PolygonNavmesh) : Json :=
  .obj [("vertices", list_to_json u16vec3_to_json p.vertices), ("polygons", list_to_json (list_to_json nat_to_json) p.polygons), ("neighbors", list_to_json (list_to_json (option_to_json nat_to_json)) p.neighbors), ("regions", list_to_json nat_to_json p.regions), ("areas", list_to_json nat_to_json p.areas), ("aabb", aabb_to_json p.aabb), ("cell_size", rat_to_json p.cell_size), ("cell_height", rat_to_json p.cell_height), ("max_vertices_per_polygon", nat_to_json p.max_vertices_per_polygon)]

/-- `PolygonNavmesh` from JSON. -/
def poly_from_json : Json → Option PolygonNavmesh
  | .obj [(k1, j1), (k2, j2), (k3, j3), (k4, j4), (k5, j5), (k6, j6), (k7, j7), (k8, j8), (k9, j9)] =>
    if k1 = "vertices" ∧ k2 = "polygons" ∧ k3 = "neighbors" ∧ k4 = "regions" ∧ k5 = "areas" ∧ k6 = "aabb" ∧ k7 = "cell_size" ∧ k8 = "cell_height" ∧ k9 = "max_vertices_per_polygon" then
      match list_from_json u16vec3_from_json j1 with
      | some vs =>
        match list_from_json (list_from_json nat_from_json) j2 with
        | some ps =>
          match list_from_json (list_from_json (option_from_json nat_from_json)) j3 with
          | some ns =>
            match list_from_json nat_from_json j4 with
            | some rs =>
              match list_from_json nat_from_json j5 with
              | some ars =>
                match aabb_from_json j6 with
                | some bb =>
                  match rat_from_json j7 with
                  | some cs =>
                    match rat_from_json j8 with
                    | some ch =>
                      match nat_from_json j9 with
                      | some mv =>
                        some ⟨vs, ps, ns, rs, ars, bb, cs, ch, mv⟩
                      | none => none
                    | none => none
                  | none => none
                | none => none
              | none => none
            | none => none
          | none => none
        | none => none
      | none => none
    else none
  | _ => none

/-- `DetailNavmesh` to JSON. -/
def detail_to_json (d : DetailNavmesh) : Json :=
  .obj [("meshes", list_to_json tet_to_json d.meshes), ("vertices", list_to_json vec3_to_json d.vertices), ("triangles", list_to_json tri_to_json d.triangles)]

/-- `DetailNavmesh` from JSON. -/
def detail_from_json : Json → Option DetailNavmesh
  | .obj [(k1, j1), (k2, j2), (k3, j3)] =>
    if k1 = "meshes" ∧ k2 = "vertices" ∧ k3 = "triangles" then
      match list_from_json tet_from_json j1 with
      | some ms =>
        match list_from_json vec3_from_json j2 with
        | some vs =>
          match list_from_json tri_from_json j3 with
          | some ts =>
            some ⟨ms, vs, ts⟩
          | none => none
        | none => none
      | none => none
    else none
  | _ => none

/-- `NavmeshSettings` to JSON. -/
def settings_to_json (s : NavmeshSettings) : Json :=
  .obj [("cell_size_fraction", rat_to_json s.cell_size_fraction), ("cell_height_fraction", rat_to_json s.cell_height_fraction), ("walkable_slope_angle", rat_to_json s.walkable_slope_angle), ("agent_radius", rat_to_json s.agent_radius), ("agent_height", rat_to_json s.agent_height), ("walkable_climb", rat_to_json s.walkable_climb), ("min_region_size", nat_to_json s.min_region_size), ("merge_region_size", nat_to_json s.merge_region_size), ("border_size", nat_to_json s.border_size), ("edge_max_len_factor", rat_to_json s.edge_max_len_factor), ("max_simplification_error", rat_to_json s.max_simplification_error), ("max_vertices_per_polygon", nat_to_json s.max_vertices_per_polygon), ("detail_sample_dist", rat_to_json s.detail_sample_dist), ("detail_sample_max_error", rat_to_json s.detail_sample_max_error), ("aabb", option_to_json aabb_to_json s.aabb), ("area_volumes", list_to_json area_volume_to_json s.area_volumes), ("up", vec3_to_json s.up), ("tile_size", option_to_json nat_to_json s.tile_size)]

/-- `NavmeshSettings` from JSON. -/
def settings_from_json : Json → Option NavmeshSettings
  | .obj [(k1, j1), (k2, j2), (k3, j3), (k4, j4), (k5, j5), (k6, j6), (k7, j7), (k8, j8), (k9, j9), (k10, j10), (k11, j11), (k12, j12), (k13, j13), (k14, j14), (k15, j15), (k16, j16), (k17, j17), (k18, j18)] =>
    if k1 = "cell_size_fraction" ∧ k2 = "cell_height_fraction" ∧ k3 = "walkable_slope_angle" ∧ k4 = "agent_radius" ∧ k5 = "agent_height" ∧ k6 = "walkable_climb" ∧ k7 = "min_region_size" ∧ k8 = "merge_region_size" ∧ k9 = "border_size" ∧ k10 = "edge_max_len_factor" ∧ k11 = "max_simplification_error" ∧ k12 = "max_vertices_per_polygon" ∧ k13 = "detail_sample_dist" ∧ k14 = "detail_sample_max_error" ∧ k15 = "aabb" ∧ k16 = "area_volumes" ∧ k17 = "up" ∧ k18 = "tile_size" then
      match rat_from_json j1 with
      | some f1 =>
        match rat_from_json j2 with
        | some f2 =>
          match rat_from_json j3 with
          | some f3 =>
            match rat_from_json j4 with
            | some f4 =>
              match rat_from_json j5 with
              | some f5 =>
                match rat_from_json j6 with
                | some f6 =>
                  match nat_from_json j7 with
                  | some f7 =>
                    match nat_from_json j8 with
                    | some f8 =>
                      match nat_from_json j9 with
                      | some f9 =>
                        match rat_from_json j10 with
                        | some f10 =>
                          match rat_from_json j11 with
                          | some f11 =>
                            match nat_from_json j12 with
                            | some f12 =>
                              match rat_from_json j13 with
                              | some f13 =>
                                match rat_from_json j14 with
                                | some f14 =>
                                  match option_from_json aabb_from_json j15 with
                                  | some f15 =>
                                    match list_from_json area_volume_from_json j16 with
                                    | some f16 =>
                                      match vec3_from_json j17 with
                                      | some f17 =>
                                        match option_from_json nat_from_json j18 with
                                        | some f18 =>
                                          some ⟨f1, f2, f3, f4, f5, f6, f7, f8, f9, f10, f11, f12, f13, f14, f15, f16, f17, f18⟩
                                        | none => none
                                      | none => none
                                    | none => none
                                  | none => none
                                | none => none
                              | none => none
                            | none => none
                          | none => none
                        | none => none
                      | none => none
                    | none => none
                  | none => none
                | none => none
              | none => none
            | none => none
          | none => none
        | none => none
      | none => none
    else none
  | _ => none

/-- `Navmesh` to JSON. -/
def nav_to_json (n : Navmesh) : Json :=
  .obj [("polygon", poly_to_json n.polygon), ("detail", detail_to_json n.detail), ("settings", settings_to_json n.settings)]

/-- `Navmesh` from JSON. -/
def nav_from_json : Json → Option Navmesh
  | .obj [(k1, j1), (k2, j2), (k3, j3)] =>
    if k1 = "polygon" ∧ k2 = "detail" ∧ k3 = "settings" then
      match poly_from_json j1 with
      | some p =>
        match detail_from_json j2 with
        | some d =>
          match settings_from_json j3 with
          | some s =>
            some ⟨p, d, s⟩
          | none => none
        | none => none
      | none => none
    else none
  | _ => none

/-- Embedding of the editor-integration `serialize` (`serialization.rs`
lines 15-33): bincode standard-config bytes of the value, wrapped in
standard base64, returned as a JSON string value. -/
def serialize (n : Navmesh) : Json := .str (b64_encode (enc_navmesh n))

/-- Embedding of the editor-integration `deserialize` (`serialization.rs`
lines 36-55): expects a JSON string, base64-decodes it, then
bincode-decodes (`decode_from_slice` returns the value and the number of
consumed bytes, ignoring any trailing bytes). -/
def deserialize (j : Json) : Option Navmesh :=
  match j with
  | .str s =>
    match b64_decode s with
    | some bytes =>
      match dec_navmesh bytes with
      | some (n, _) => some n
      | none => none
    | none => none
  | _ => none

/-- Claim C2: the two axis-remapping permutations of `generate_navmesh` are
mutually inverse. -/
theorem claim_c2_axis_remap_inverse {α : Type} (v : Vect3 α) :
    remap_out_z (remap_in_z v) = v ∧ remap_in_z (remap_out_z v) = v ∧
    remap_out_x (remap_in_x v) = v ∧ remap_in_x (remap_out_x v) = v := by
  refine ⟨rfl, rfl, rfl, rfl⟩

theorem run_pipeline_ok_trace (impl : PipelineImpl) (config : NavmeshConfig)
    (trimesh : TriMesh) (tr : List Step)
    (res : PolygonNavmesh × DetailNavmesh) (tr2 : List Step)
    (h : run_pipeline impl config trimesh tr = (.ok res, tr2)) :
    tr2 = tr ++ pipeline_trace config.area_volumes.length := by
  simp only [run_pipeline] at h
  split at h
  · simp at h
  · split at h
    · simp at h
    · split at h
      · simp at h
      · split at h
        · simp at h
        · split at h
          · simp at h
          · split at h
            · simp at h
            · simp only [Prod.mk.injEq] at h
              rw [← h.2]
              simp [pipeline_trace]

theorem run_pipeline_error_ne_aabb (impl : PipelineImpl) (config : NavmeshConfig)
    (trimesh : TriMesh) (tr : List Step) :
    (run_pipeline impl config trimesh tr).1 ≠ .error .empty_trimesh_aabb := by
  simp only [run_pipeline]
  split
  · simp
  · split
    · simp
    · split
      · simp
      · split
        · simp
        · split
          · simp
          · split
            · simp
            · simp

theorem resolve_aabb_volumes (cb cb2 : NavmeshConfig) (tm : TriMesh)
    (h : resolve_aabb cb tm = some cb2) : cb2.area_volumes = cb.area_volumes := by
  unfold resolve_aabb at h
  split at h
  · split at h
    · cases h
      rfl
    · cases h
  · cases h
    rfl

theorem remap_config_in_volumes (up : Vec3) (cb cb2 : NavmeshConfig)
    (h : remap_config_in up cb = some cb2) : cb2.area_volumes = cb.area_volumes := by
  unfold remap_config_in at h
  split at h
  · cases h
    rfl
  · split at h
    · cases h
      rfl
    · split at h
      · cases h
        rfl
      · cases h

theorem generate_after_up_ok_trace (impl : PipelineImpl) (up : Vec3)
    (settings : NavmeshSettings) (trimesh : TriMesh) (tr : List Step)
    (nm : Navmesh) (tr2 : List Step)
    (h : generate_after_up impl up settings trimesh tr = (.ok nm, tr2)) :
    tr2 = tr ++ pipeline_trace settings.area_volumes.length := by
  simp only [generate_after_up] at h
  split at h
  · simp at h
  next cb1 hres =>
    split at h
    · simp at h
    next cb2 hremap =>
      split at h
      next e tr3 hrun => simp at h
      next pm dm tr3 hrun =>
        have htr := run_pipeline_ok_trace impl cb2 trimesh tr (pm, dm) tr3 hrun
        have hv : cb2.area_volumes = settings.area_volumes := by
          rw [remap_config_in_volumes up cb1 cb2 hremap,
            resolve_aabb_volumes settings.into_rerecast_config cb1 trimesh hres]
          rfl
        split at h
        · simp at h
        · cases h
          rw [htr, hv]

/-- Claim C1: for every fixed affector list and settings, two evaluations of
`generate_navmesh` yield structurally identical `Navmesh` values — every
field (`polygon`, `detail`, `settings`) agrees. The embedding is a pure
function of its inputs (the source iterates only over `Vec` values and calls
the pure `rerecast` pipeline), so both runs coincide. -/
theorem claim_c1_determinism (impl : PipelineImpl)
    (affectors : List (WorldTransform × TriMesh)) (settings : NavmeshSettings)
    (n₁ n₂ : Navmesh)
    (h₁ : (generate_navmesh impl affectors settings).1 = .ok n₁)
    (h₂ : (generate_navmesh impl affectors settings).1 = .ok n₂) :
    n₁.polygon = n₂.polygon ∧ n₁.detail = n₂.detail ∧ n₁.settings = n₂.settings := by
  rw [h₁] at h₂
  injection h₂ with h
  subst h
  exact ⟨rfl, rfl, rfl⟩

/-- Witness for C1 at a concrete input. -/
theorem claim_c1_determinism_witness :
    (generate_navmesh trivialImpl [affector0] settings0).1 = .ok nav0 ∧
    nav0.polygon = nav0.polygon ∧ nav0.detail = nav0.detail ∧
    nav0.settings = nav0.settings :=
  ⟨by decide,
   claim_c1_determinism trivialImpl [affector0] settings0 nav0 nav0 (by decide) (by decide)⟩

/-- Claim C3: on success, `generate_navmesh` invokes the pipeline stages in
exactly the specified order — rasterize, the three span filters
(low-hanging, ledge, low-clearance), compact heightfield, erosion, area
volume marking, distance field, regions, contours, polygon mesh, detail
mesh — each consuming the previous stage's output (the trace below is
emitted in invocation order by the embedding). -/
theorem claim_c3_stage_order (impl : PipelineImpl)
    (affectors : List (WorldTransform × TriMesh)) (settings : NavmeshSettings)
    (nm : Navmesh) (tr : List Step)
    (h : generate_navmesh impl affectors settings = (.ok nm, tr)) :
    tr = List.replicate affectors.length Step.mergeAffector ++
      ([Step.markWalkable, Step.buildHeightfield, Step.rasterize, Step.filterLowHanging,
        Step.filterLedge, Step.filterLowHeight, Step.buildCompact, Step.erode] ++
       List.replicate settings.area_volumes.length Step.markArea ++
       [Step.distanceField, Step.buildRegions, Step.buildContours, Step.polygonMesh,
        Step.detailMesh]) := by
  simp only [generate_navmesh] at h
  split at h
  · simpa [pipeline_trace] using generate_after_up_ok_trace _ _ _ _ _ _ _ h
  · split at h
    · simpa [pipeline_trace] using generate_after_up_ok_trace _ _ _ _ _ _ _ h
    · split at h
      · simpa [pipeline_trace] using generate_after_up_ok_trace _ _ _ _ _ _ _ h
      · simp at h

/-- Witness for C3 at a concrete input with one area volume. -/
theorem claim_c3_stage_order_witness :
    generate_navmesh trivialImpl [affector0] settingsVol = (.ok navVol, traceVol) ∧
    traceVol = List.replicate 1 Step.mergeAffector ++
      ([Step.markWalkable, Step.buildHeightfield, Step.rasterize, Step.filterLowHanging,
        Step.filterLedge, Step.filterLowHeight, Step.buildCompact, Step.erode] ++
       List.replicate settingsVol.area_volumes.length Step.markArea ++
       [Step.distanceField, Step.buildRegions, Step.buildContours, Step.polygonMesh,
        Step.detailMesh]) :=
  ⟨by decide,
   claim_c3_stage_order trivialImpl [affector0] settingsVol navVol traceVol (by decide)⟩

/-- Counterexample to C4 as stated: with a non-canonical `up` and one
affector, `generate_navmesh` does return the invalid-up error, but the
instrumentation trace is non-empty — the affector geometry was already merged
and transformed (`generator.rs` lines 150-157 run before the `up` check at
line 159), so the error is *not* reported before any computation on the
geometry starts. -/
theorem claim_c4_counterexample :
    (generate_navmesh trivialImpl [affector0] settingsBadUp).1 =
      .error (.unsupported_up ⟨1, 1, 0⟩) ∧
    (generate_navmesh trivialImpl [affector0] settingsBadUp).2 ≠ [] := by
  decide

/-- Claim C4, amended: for every settings whose up vector is not one of the
three canonical unit axes, `generate_navmesh` returns the invalid-up error
and produces no `Navmesh`; the error is reported after the affector geometry
has been merged and transformed but before any pipeline stage runs (the
trace holds exactly the per-affector merge steps and nothing else). -/
theorem claim_c4_invalid_up_amended (impl : PipelineImpl)
    (affectors : List (WorldTransform × TriMesh)) (settings : NavmeshSettings)
    (hY : settings.up ≠ Vec3.unitY) (hZ : settings.up ≠ Vec3.unitZ)
    (hX : settings.up ≠ Vec3.unitX) :
    generate_navmesh impl affectors settings =
      (.error (.unsupported_up settings.up),
       List.replicate affectors.length Step.mergeAffector) := by
  simp only [generate_navmesh]
  rw [if_neg hY, if_neg hZ, if_neg hX]

/-- Witness for the amended C4 at a concrete input. -/
theorem claim_c4_invalid_up_amended_witness :
    settingsBadUp.up ≠ Vec3.unitY ∧
    generate_navmesh trivialImpl [affector0] settingsBadUp =
      (.error (.unsupported_up settingsBadUp.up),
       List.replicate 1 Step.mergeAffector) :=
  ⟨by decide,
   claim_c4_invalid_up_amended trivialImpl [affector0] settingsBadUp
     (by decide) (by decide) (by decide)⟩

theorem compute_aabb_eq_none (tm : TriMesh) :
    tm.compute_aabb = none ↔ tm.triangles = [] := by
  unfold TriMesh.compute_aabb
  cases tm.triangles with
  | nil => simp
  | cons t rest =>
    cases tm.vertices <;> simp

theorem resolve_aabb_eq_none (cb : NavmeshConfig) (tm : TriMesh) :
    resolve_aabb cb tm = none ↔ cb.aabb = Aabb3d.default ∧ tm.triangles = [] := by
  unfold resolve_aabb
  split
  next hdef =>
    cases hca : tm.compute_aabb with
    | none => simp [hdef, (compute_aabb_eq_none tm).mp hca]
    | some bb =>
      have hne : tm.triangles ≠ [] := by
        intro ht
        rw [(compute_aabb_eq_none tm).mpr ht] at hca
        cases hca
      simp [hne]
  next hdef => simp [hdef]

theorem unitZ_ne_unitY : Vec3.unitZ ≠ Vec3.unitY := by decide

theorem unitX_ne_unitY : Vec3.unitX ≠ Vec3.unitY := by decide

theorem unitX_ne_unitZ : Vec3.unitX ≠ Vec3.unitZ := by decide

theorem remap_config_in_valid (up : Vec3) (cb : NavmeshConfig)
    (hup : up = Vec3.unitY ∨ up = Vec3.unitZ ∨ up = Vec3.unitX) :
    remap_config_in up cb ≠ none := by
  rcases hup with h | h | h <;> subst h <;>
    simp [remap_config_in, unitZ_ne_unitY, unitX_ne_unitY, unitX_ne_unitZ]

theorem remap_navmesh_out_valid (up : Vec3) (nm : Navmesh)
    (hup : up = Vec3.unitY ∨ up = Vec3.unitZ ∨ up = Vec3.unitX) :
    remap_navmesh_out up nm ≠ none := by
  rcases hup with h | h | h <;> subst h <;>
    simp [remap_navmesh_out, unitZ_ne_unitY, unitX_ne_unitY, unitX_ne_unitZ]

theorem generate_after_up_aabb_error (impl : PipelineImpl) (up : Vec3)
    (settings : NavmeshSettings) (trimesh : TriMesh) (tr : List Step)
    (hup : up = Vec3.unitY ∨ up = Vec3.unitZ ∨ up = Vec3.unitX) :
    ((generate_after_up impl up settings trimesh tr).1 =
        .error .empty_trimesh_aabb ↔
      (settings.into_rerecast_config.aabb = Aabb3d.default ∧ trimesh.triangles = [])) := by
  simp only [generate_after_up]
  split
  next hres =>
    simp [(resolve_aabb_eq_none settings.into_rerecast_config trimesh).mp hres]
  next cb1 hres =>
    have hrhs : ¬(settings.into_rerecast_config.aabb = Aabb3d.default ∧
        trimesh.triangles = []) := by
      intro hc
      rw [(resolve_aabb_eq_none settings.into_rerecast_config trimesh).mpr hc] at hres
      cases hres
    split
    next hremap => exact absurd hremap (remap_config_in_valid up cb1 hup)
    next cb2 hremap =>
      split
      next e tr3 hrun =>
        have hne := run_pipeline_error_ne_aabb impl cb2 trimesh tr
        rw [hrun] at hne
        simp only [ne_eq] at hne
        simp [hrhs]
        intro hcontra
        exact hne (by rw [hcontra])
      next pm dm tr3 hrun =>
        split
        next hout =>
          exact absurd hout
            (remap_navmesh_out_valid up { polygon := pm, detail := dm, settings := settings } hup)
        next nm hout => simp [hrhs]

theorem getD_default_iff (o : Option Aabb3d) :
    o.getD Aabb3d.default = Aabb3d.default ↔ (o = none ∨ o = some Aabb3d.default) := by
  cases o <;> simp

/-- Counterexample to C5 as stated: the caller supplies an explicit AABB
(`Some(Aabb3d::default())`), yet with empty geometry the empty-trimesh AABB
derivation is *not* skipped — `generate_navmesh` still fails with the
empty-trimesh error, because `generator.rs` probes
`config_builder.aabb == Aabb3d::default()` rather than whether the field was
supplied. -/
theorem claim_c5_counterexample :
    settingsDefaultAabb.aabb = some Aabb3d.default ∧
    (generate_navmesh trivialImpl [] settingsDefaultAabb).1 =
      .error .empty_trimesh_aabb := by
  decide

/-- Claim C5, amended: for a canonical up axis, `generate_navmesh` fails
with the explicit empty-trimesh error exactly when the configured AABB is
the default (zero) one — i.e. the caller supplied no AABB *or* supplied one
equal to the default — and the merged trimesh has zero triangles; with any
other explicit AABB the empty-geometry derivation is skipped and this error
cannot occur. -/
theorem claim_c5_empty_geometry_amended (impl : PipelineImpl)
    (affectors : List (WorldTransform × TriMesh)) (settings : NavmeshSettings)
    (hup : settings.up = Vec3.unitY ∨ settings.up = Vec3.unitZ ∨
      settings.up = Vec3.unitX) :
    ((generate_navmesh impl affectors settings).1 = .error .empty_trimesh_aabb ↔
      ((settings.aabb = none ∨ settings.aabb = some Aabb3d.default) ∧
        (merge_affectors affectors).triangles = [])) := by
  have hconfig : settings.into_rerecast_config.aabb = settings.aabb.getD Aabb3d.default := rfl
  rcases hup with h | h | h
  · rw [show (generate_navmesh impl affectors settings) =
        generate_after_up impl settings.up settings (merge_affectors affectors)
          (List.replicate affectors.length Step.mergeAffector) by
      simp only [generate_navmesh]
      rw [if_pos h]]
    rw [generate_after_up_aabb_error impl settings.up settings _ _ (Or.inl h)]
    rw [hconfig, getD_default_iff]
  · rw [show (generate_navmesh impl affectors settings) =
        generate_after_up impl settings.up settings
          { merge_affectors affectors with
              vertices := (merge_affectors affectors).vertices.map remap_in_z }
          (List.replicate affectors.length Step.mergeAffector) by
      simp only [generate_navmesh]
      rw [if_neg (by rw [h]; exact unitZ_ne_unitY), if_pos h]]
    rw [generate_after_up_aabb_error impl settings.up settings _ _ (Or.inr (Or.inl h))]
    rw [hconfig, getD_default_iff]
  · rw [show (generate_navmesh impl affectors settings) =
        generate_after_up impl settings.up settings
          { merge_affectors affectors with
              vertices := (merge_affectors affectors).vertices.map remap_in_x }
          (List.replicate affectors.length Step.mergeAffector) by
      simp only [generate_navmesh]
      rw [if_neg (by rw [h]; exact unitX_ne_unitY), if_neg (by rw [h]; exact unitX_ne_unitZ),
        if_pos h]]
    rw [generate_after_up_aabb_error impl settings.up settings _ _ (Or.inr (Or.inr h))]
    rw [hconfig, getD_default_iff]

/-- Witness for the amended C5 at a concrete input. -/
theorem claim_c5_empty_geometry_amended_witness :
    (settingsNoAabb.up = Vec3.unitY ∨ settingsNoAabb.up = Vec3.unitZ ∨
      settingsNoAabb.up = Vec3.unitX) ∧
    ((generate_navmesh trivialImpl [] settingsNoAabb).1 = .error .empty_trimesh_aabb ↔
      ((settingsNoAabb.aabb = none ∨ settingsNoAabb.aabb = some Aabb3d.default) ∧
        (merge_affectors []).triangles = [])) :=
  ⟨Or.inl (by decide),
   claim_c5_empty_geometry_amended trivialImpl [] settingsNoAabb (Or.inl (by decide))⟩

/-- Claim C6: `regenerate` returns `false` and leaves both queues unchanged
when the id is already pending or in flight, otherwise inserts the request
into the pending queue and returns `true`; it preserves the queue
uniqueness invariant, so via `regenerate` an id is never queued or in
flight twice at once (occurrence count at most one). -/
theorem claim_c6_regenerate_dedup (w : World) (id : ℕ) (s : NavmeshSettings)
    (hwf : w.WF) :
    (id ∈ kv_keys w.queue ++ kv_keys w.tasks → regenerate w id s = (false, w)) ∧
    (id ∉ kv_keys w.queue ++ kv_keys w.tasks →
      (regenerate w id s).1 = true ∧
      (regenerate w id s).2.queue = w.queue ++ [(id, s)] ∧
      (regenerate w id s).2.tasks = w.tasks) ∧
    ((regenerate w id s).2).WF ∧
    (kv_keys (regenerate w id s).2.queue ++
      kv_keys (regenerate w id s).2.tasks).count id ≤ 1 := by
  by_cases hmem : id ∈ kv_keys w.queue ++ kv_keys w.tasks
  · have hres : regenerate w id s = (false, w) := by
      simp [regenerate, hmem]
    refine ⟨fun _ => hres, fun hno => absurd hmem hno, ?_, ?_⟩
    · rw [hres]
      exact hwf
    · rw [hres]
      exact List.nodup_iff_count_le_one.mp hwf id
  · have hnq : id ∉ kv_keys w.queue := fun hc => hmem (List.mem_append_left _ hc)
    have hres : regenerate w id s = (true, { w with queue := w.queue ++ [(id, s)] }) := by
      simp [regenerate, hmem, kv_insert, hnq]
    have hkeys : kv_keys (w.queue ++ [(id, s)]) = kv_keys w.queue ++ [id] := by
      simp [kv_keys]
    have hwf2 : (kv_keys (w.queue ++ [(id, s)]) ++ kv_keys w.tasks).Nodup := by
      rw [hkeys, List.append_assoc]
      have : (id :: (kv_keys w.queue ++ kv_keys w.tasks)).Nodup :=
        List.nodup_cons.mpr ⟨hmem, hwf⟩
      exact (List.nodup_middle).mpr this
    refine ⟨fun hc => absurd hc hmem, fun _ => ?_, ?_, ?_⟩
    · rw [hres]
      exact ⟨rfl, rfl, rfl⟩
    · rw [hres]
      exact hwf2
    · rw [hres]
      exact List.nodup_iff_count_le_one.mp hwf2 id

theorem kv_lookup_cons {α : Type} (p : ℕ × α) (l : List (ℕ × α)) (k : ℕ) :
    kv_lookup (p :: l) k = if p.1 = k then some p.2 else kv_lookup l k := by
  by_cases h : p.1 = k
  · simp [kv_lookup, List.find?_cons_of_pos, h]
  · simp only [kv_lookup, if_neg h]
    rw [List.find?_cons_of_neg]
    simp [h]

theorem kv_lookup_map_replace {α : Type} (l : List (ℕ × α)) (k k2 : ℕ) (v : α)
    (hne : k ≠ k2) :
    kv_lookup (l.map (fun p => if p.1 = k then (k, v) else p)) k2 = kv_lookup l k2 := by
  induction l with
  | nil => rfl
  | cons p rest ih =>
    rw [List.map_cons]
    by_cases hpk : p.1 = k
    · rw [if_pos hpk, kv_lookup_cons, kv_lookup_cons]
      rw [if_neg (by simpa using hne), if_neg (by rw [hpk]; exact hne)]
      exact ih
    · rw [if_neg hpk, kv_lookup_cons, kv_lookup_cons]
      by_cases hpk2 : p.1 = k2
      · rw [if_pos hpk2, if_pos hpk2]
      · rw [if_neg hpk2, if_neg hpk2]
        exact ih

theorem kv_lookup_append_single {α : Type} (l : List (ℕ × α)) (k k2 : ℕ) (v : α)
    (hne : k ≠ k2) :
    kv_lookup (l ++ [(k, v)]) k2 = kv_lookup l k2 := by
  induction l with
  | nil =>
    rw [List.nil_append, kv_lookup_cons]
    simp [hne]
  | cons p rest ih =>
    rw [List.cons_append, kv_lookup_cons, kv_lookup_cons]
    by_cases hpk2 : p.1 = k2
    · rw [if_pos hpk2, if_pos hpk2]
    · rw [if_neg hpk2, if_neg hpk2]
      exact ih

theorem kv_lookup_insert_ne {α : Type} (l : List (ℕ × α)) (k k2 : ℕ) (v : α)
    (hne : k ≠ k2) :
    kv_lookup (kv_insert l k v) k2 = kv_lookup l k2 := by
  unfold kv_insert
  split
  · exact kv_lookup_map_replace l k k2 v hne
  · exact kv_lookup_append_single l k k2 v hne

theorem fold_insert_done_lookup (ts : List (ℕ × TaskState))
    (nm : List (ℕ × Navmesh)) (id : ℕ)
    (h : ∀ p ∈ ts, p.1 ≠ id ∨ ∀ n, p.2 ≠ TaskState.done (.ok n)) :
    kv_lookup (ts.foldl insert_done_ok nm) id = kv_lookup nm id := by
  induction ts generalizing nm with
  | nil => rfl
  | cons p rest ih =>
    rw [List.foldl_cons]
    rw [ih _ (fun q hq => h q (List.mem_cons_of_mem _ hq))]
    rcases p with ⟨pid, pst⟩
    cases pst with
    | running a i => rfl
    | done r =>
      cases r with
      | error e => rfl
      | ok nmv =>
        rcases h (pid, TaskState.done (.ok nmv)) (List.mem_cons_self _ _) with hne | hok
        · exact kv_lookup_insert_ne nm pid id nmv hne
        · exact absurd rfl (hok nmv)

theorem kv_nodup_eq_of_mem {α : Type} (k : ℕ) (a : α) :
    ∀ l : List (ℕ × α), (kv_keys l).Nodup → (k, a) ∈ l →
      ∀ p ∈ l, p.1 = k → p = (k, a) := by
  intro l
  induction l with
  | nil =>
    intro _ _ p hp
    cases hp
  | cons q rest ih =>
    intro hnd hmem p hp hpk
    simp only [kv_keys, List.map_cons, List.nodup_cons] at hnd
    rcases List.mem_cons.mp hmem with heq | hmemr
    · rcases List.mem_cons.mp hp with rfl | hpr
      · exact heq.symm
      · exfalso
        apply hnd.1
        rw [← heq]
        exact List.mem_map.mpr ⟨p, hpr, hpk⟩
    · rcases List.mem_cons.mp hp with rfl | hpr
      · exfalso
        apply hnd.1
        rw [hpk]
        exact List.mem_map.mpr ⟨(k, a), hmemr, rfl⟩
      · exact ih hnd.2 hmemr p hpr hpk

/-- Claim C7: when a generation task completed with an error, `poll_tasks`
inserts nothing into `Assets<Navmesh>` for that id — the asset entry for the
failed id is exactly what it was before the poll. -/
theorem claim_c7_error_inserts_no_asset (w : World) (id : ℕ) (e : GenError)
    (hmem : (id, TaskState.done (.error e)) ∈ w.tasks)
    (hnd : (kv_keys w.tasks).Nodup) :
    kv_lookup (poll_tasks w).1.navmeshes id = kv_lookup w.navmeshes id := by
  have huniq := kv_nodup_eq_of_mem id (TaskState.done (.error e)) w.tasks hnd hmem
  have hva : ∀ p ∈ w.tasks, p.1 ≠ id ∨ ∀ n, p.2 ≠ TaskState.done (.ok n) := by
    intro p hp
    by_cases hpk : p.1 = id
    · right
      intro n hcontra
      rw [huniq p hp hpk] at hcontra
      simp at hcontra
    · left
      exact hpk
  exact fold_insert_done_lookup w.tasks w.navmeshes id hva

/-- Witness for C7 at a concrete input. -/
theorem claim_c7_error_inserts_no_asset_witness :
    (3, TaskState.done (.error GenError.rasterize_failed)) ∈ world7.tasks ∧
    (kv_keys world7.tasks).Nodup ∧
    kv_lookup (poll_tasks world7).1.navmeshes 3 = kv_lookup world7.navmeshes 3 :=
  ⟨List.mem_singleton.mpr rfl, by decide,
   claim_c7_error_inserts_no_asset world7 3 GenError.rasterize_failed
     (List.mem_singleton.mpr rfl) (by decide)⟩

theorem keys_filter_ne (t : List (ℕ × TaskState)) (id : ℕ) :
    id ∉ kv_keys (t.filter (fun p => decide (p.1 ≠ id))) := by
  intro h
  simp only [kv_keys, List.mem_map, List.mem_filter, decide_eq_true_eq] at h
  rcases h with ⟨p, ⟨_, hne⟩, hpk⟩
  exact hne hpk

theorem keys_filter_sub (t : List (ℕ × TaskState)) (f : (ℕ × TaskState) → Bool)
    (x : ℕ) (h : x ∈ kv_keys (t.filter f)) : x ∈ kv_keys t := by
  simp only [kv_keys, List.mem_map, List.mem_filter] at h ⊢
  rcases h with ⟨p, ⟨hp, _⟩, hpk⟩
  exact ⟨p, hp, hpk⟩

theorem keys_filter_mem_of_ne (t : List (ℕ × TaskState)) (a id : ℕ) (hne : id ≠ a)
    (h : id ∈ kv_keys t) : id ∈ kv_keys (t.filter (fun p => decide (p.1 ≠ a))) := by
  simp only [kv_keys, List.mem_map, List.mem_filter, decide_eq_true_eq] at h ⊢
  rcases h with ⟨p, hp, hpk⟩
  exact ⟨p, ⟨hp, by rw [hpk]; exact hne⟩, hpk⟩

theorem fold_remove_preserve (ids : List ℕ) (t : List (ℕ × TaskState)) (ev : List ℕ)
    (id : ℕ) (habs : id ∉ kv_keys t) (hev : id ∈ ev) :
    id ∉ kv_keys (ids.foldl remove_step (t, ev)).1 ∧
    id ∈ (ids.foldl remove_step (t, ev)).2 := by
  induction ids generalizing t ev with
  | nil => exact ⟨habs, hev⟩
  | cons a rest ih =>
    rw [List.foldl_cons]
    unfold remove_step
    split
    · exact ih _ _ (fun hc => habs (keys_filter_sub t _ id hc))
        (List.mem_append_left _ hev)
    · exact ih t ev habs hev

theorem fold_remove_mem (ids : List ℕ) (t : List (ℕ × TaskState)) (ev : List ℕ)
    (id : ℕ) (hnd : ids.Nodup) (hin : id ∈ ids) (hkey : id ∈ kv_keys t) :
    id ∉ kv_keys (ids.foldl remove_step (t, ev)).1 ∧
    id ∈ (ids.foldl remove_step (t, ev)).2 := by
  induction ids generalizing t ev with
  | nil => cases hin
  | cons a rest ih =>
    rw [List.foldl_cons]
    by_cases ha : a = id
    · subst ha
      unfold remove_step
      rw [if_pos hkey]
      exact fold_remove_preserve rest _ _ a (keys_filter_ne t a) (by simp)
    · have hinr : id ∈ rest := by
        rcases List.mem_cons.mp hin with h | h
        · exact absurd h.symm ha
        · exact h
      have hndr : rest.Nodup := (List.nodup_cons.mp hnd).2
      unfold remove_step
      split
      · exact ih _ _ hndr hinr
          (keys_filter_mem_of_ne t a id (fun hc => ha hc.symm) hkey)
      · exact ih t ev hndr hinr hkey

theorem removed_ids_sublist (ts : List (ℕ × TaskState)) :
    (ts.filterMap (fun p => if is_finished p.2 then some p.1 else none)).Sublist
      (kv_keys ts) := by
  induction ts with
  | nil => simp
  | cons p rest ih =>
    rw [List.filterMap_cons]
    cases hf : is_finished p.2 with
    | false =>
      rw [if_neg (by simp [hf])]
      have : kv_keys (p :: rest) = p.1 :: kv_keys rest := rfl
      rw [this]
      exact ih.cons p.1
    | true =>
      rw [if_pos rfl]
      have : kv_keys (p :: rest) = p.1 :: kv_keys rest := rfl
      rw [this]
      exact ih.cons₂ p.1

/-- Claim C9: whenever a generation task has completed — with a navmesh or
with an error — `poll_tasks` removes its id from the task queue and triggers
`NavmeshReady` for it (the id appears in the emitted event list), in
particular also when the generation failed. -/
theorem claim_c9_completed_removed_and_ready (w : World) (id : ℕ)
    (r : Except GenError Navmesh)
    (hmem : (id, TaskState.done r) ∈ w.tasks)
    (hnd : (kv_keys w.tasks).Nodup) :
    id ∉ kv_keys (poll_tasks w).1.tasks ∧ id ∈ (poll_tasks w).2 := by
  have hid : id ∈ w.tasks.filterMap
      (fun p => if is_finished p.2 then some p.1 else none) :=
    List.mem_filterMap.mpr ⟨(id, .done r), hmem, by simp [is_finished]⟩
  have hndr := (removed_ids_sublist w.tasks).nodup hnd
  have hkey : id ∈ kv_keys w.tasks :=
    List.mem_map.mpr ⟨(id, .done r), hmem, rfl⟩
  exact fold_remove_mem _ w.tasks [] id hndr hid hkey

/-- Witness for C9 at a concrete input: the task failed, yet it is removed
and `NavmeshReady` fires for its id. -/
theorem claim_c9_completed_removed_and_ready_witness :
    (5, TaskState.done (.error GenError.build_regions_failed)) ∈ world9.tasks ∧
    (kv_keys world9.tasks).Nodup ∧
    (5 ∉ kv_keys (poll_tasks world9).1.tasks ∧ 5 ∈ (poll_tasks world9).2) :=
  ⟨List.mem_singleton.mpr rfl, by decide,
   claim_c9_completed_removed_and_ready world9 5 (.error .build_regions_failed)
     (List.mem_singleton.mpr rfl) (by decide)⟩

theorem drain_go_cons_none (w : World) (id : ℕ) (input : NavmeshSettings)
    (rest : List (ℕ × NavmeshSettings)) (hb : w.backend = none) :
    drain_go w ((id, input) :: rest) = w := by
  simp only [drain_go, hb]

theorem drain_go_cons_err (w : World) (id : ℕ) (input : NavmeshSettings)
    (rest : List (ℕ × NavmeshSettings))
    (b : NavmeshSettings → Except ℕ (List (WorldTransform × TriMesh)))
    (hb : w.backend = some b) (e : ℕ) (hbi : b input = .error e) :
    drain_go w ((id, input) :: rest) = w := by
  simp only [drain_go, hb, hbi]

theorem drain_go_cons_ok (w : World) (id : ℕ) (input : NavmeshSettings)
    (rest : List (ℕ × NavmeshSettings))
    (b : NavmeshSettings → Except ℕ (List (WorldTransform × TriMesh)))
    (a : List (WorldTransform × TriMesh))
    (hb : w.backend = some b) (hbi : b input = .ok a) :
    drain_go w ((id, input) :: rest) =
      drain_go { w with tasks := kv_insert w.tasks id (.running a input) } rest := by
  simp only [drain_go, hb, hbi]

theorem drain_go_fields (l : List (ℕ × NavmeshSettings)) :
    ∀ w : World, (drain_go w l).queue = w.queue ∧
      (drain_go w l).navmeshes = w.navmeshes ∧
      (drain_go w l).backend = w.backend := by
  induction l with
  | nil => exact fun w => ⟨rfl, rfl, rfl⟩
  | cons p rest ih =>
    intro w
    rcases p with ⟨id, input⟩
    cases hb : w.backend with
    | none =>
      rw [drain_go_cons_none w id input rest hb]
      exact ⟨rfl, rfl, hb⟩
    | some backend =>
      cases hba : backend input with
      | error e =>
        rw [drain_go_cons_err w id input rest backend hb e hba]
        exact ⟨rfl, rfl, hb⟩
      | ok affectors =>
        rw [drain_go_cons_ok w id input rest backend affectors hb hba]
        obtain ⟨q1, q2, q3⟩ :=
          ih { w with tasks := kv_insert w.tasks id (.running affectors input) }
        exact ⟨q1, q2, q3.trans hb⟩

theorem drain_go_backend_none (l : List (ℕ × NavmeshSettings)) (w : World)
    (hb : w.backend = none) : drain_go w l = w := by
  cases l with
  | nil => rfl
  | cons p rest =>
    rcases p with ⟨id, input⟩
    exact drain_go_cons_none w id input rest hb

theorem kv_insert_fresh {α : Type} (l : List (ℕ × α)) (k : ℕ) (v : α)
    (h : k ∉ kv_keys l) : kv_insert l k v = l ++ [(k, v)] := by
  unfold kv_insert
  rw [if_neg h]

theorem drain_go_keys (pre : List (ℕ × NavmeshSettings)) :
    ∀ (w : World) (idf : ℕ) (inq : NavmeshSettings)
      (post : List (ℕ × NavmeshSettings))
      (b : NavmeshSettings → Except ℕ (List (WorldTransform × TriMesh))) (e : ℕ),
      w.backend = some b → (∀ p ∈ pre, ∃ a, b p.2 = .ok a) → b inq = .error e →
      (∀ p ∈ pre, p.1 ∉ kv_keys w.tasks) → (pre.map Prod.fst).Nodup →
      kv_keys (drain_go w (pre ++ (idf, inq) :: post)).tasks =
        kv_keys w.tasks ++ pre.map Prod.fst := by
  induction pre with
  | nil =>
    intro w idf inq post b e hb hpre herr hfresh hndp
    rw [List.nil_append, drain_go_cons_err w idf inq post b hb e herr]
    simp
  | cons p pre2 ih =>
    intro w idf inq post b e hb hpre herr hfresh hndp
    rcases p with ⟨pid, pin⟩
    rw [List.cons_append]
    obtain ⟨a, ha⟩ := hpre (pid, pin) (List.mem_cons_self _ _)
    have ha2 : b pin = Except.ok a := ha
    rw [drain_go_cons_ok w pid pin _ b a hb ha2]
    have hfr : pid ∉ kv_keys w.tasks := hfresh (pid, pin) (List.mem_cons_self _ _)
    have htasks : kv_insert w.tasks pid (.running a pin) =
        w.tasks ++ [(pid, .running a pin)] :=
      kv_insert_fresh w.tasks pid _ hfr
    have hkeys2 : kv_keys (w.tasks ++ [(pid, TaskState.running a pin)]) =
        kv_keys w.tasks ++ [pid] := by
      simp [kv_keys]
    have hndp2 : (pre2.map Prod.fst).Nodup := (List.nodup_cons.mp hndp).2
    have hpidnot : pid ∉ pre2.map Prod.fst := (List.nodup_cons.mp hndp).1
    have hfresh2 : ∀ p ∈ pre2,
        p.1 ∉ kv_keys (kv_insert w.tasks pid (TaskState.running a pin)) := by
      intro q hq
      rw [htasks, hkeys2]
      intro hc
      rcases List.mem_append.mp hc with hc1 | hc2
      · exact hfresh q (List.mem_cons_of_mem _ hq) hc1
      · rcases List.mem_singleton.mp hc2 with rfl
        exact hpidnot (List.mem_map.mpr ⟨q, hq, rfl⟩)
    have hrec := ih { w with tasks := kv_insert w.tasks pid (.running a pin) } idf inq
      post b e hb (fun q hq => hpre q (List.mem_cons_of_mem _ hq)) herr hfresh2 hndp2
    rw [hrec]
    show kv_keys (kv_insert w.tasks pid (TaskState.running a pin)) ++ pre2.map Prod.fst = _
    rw [htasks, hkeys2]
    simp

theorem fold_remove_events (ids : List ℕ) (t : List (ℕ × TaskState)) (ev : List ℕ)
    (x : ℕ) (hx : x ∈ (ids.foldl remove_step (t, ev)).2) : x ∈ ev ∨ x ∈ ids := by
  induction ids generalizing t ev with
  | nil => exact Or.inl hx
  | cons a rest ih =>
    rw [List.foldl_cons] at hx
    unfold remove_step at hx
    split at hx
    · rcases ih _ _ hx with h | h
      · rcases List.mem_append.mp h with h1 | h2
        · exact Or.inl h1
        · exact Or.inr (List.mem_cons.mpr (Or.inl (List.mem_singleton.mp h2)))
      · exact Or.inr (List.mem_cons_of_mem _ h)
    · rcases ih _ _ hx with h | h
      · exact Or.inl h
      · exact Or.inr (List.mem_cons_of_mem _ h)

theorem poll_events_sub_keys (w : World) (x : ℕ) (hx : x ∈ (poll_tasks w).2) :
    x ∈ kv_keys w.tasks := by
  rcases fold_remove_events _ w.tasks [] x hx with h | h
  · cases h
  · rcases List.mem_filterMap.mp h with ⟨p, hp, hps⟩
    have hpx : p.1 = x := by
      by_cases hf : is_finished p.2 = true
      · rw [if_pos hf] at hps
        exact Option.some.inj hps
      · rw [if_neg hf] at hps
        cases hps
    exact List.mem_map.mpr ⟨p, hp, hpx⟩

theorem fold_insert_done_lookup_of_not_mem (ts : List (ℕ × TaskState))
    (nm : List (ℕ × Navmesh)) (id : ℕ) (h : id ∉ kv_keys ts) :
    kv_lookup (ts.foldl insert_done_ok nm) id = kv_lookup nm id :=
  fold_insert_done_lookup ts nm id
    (fun p hp => Or.inl (fun hc => h (List.mem_map.mpr ⟨p, hp, hc⟩)))

/-- Claim C10: `drain_queue_into_tasks` empties the pending queue up front;
if the backend resource is missing, or the backend system errors on some
drained request, the function returns at that point and every remaining
drained request is discarded — no task is spawned for it, it is not
re-queued, and a subsequent `poll_tasks` neither triggers `NavmeshReady`
for it nor touches its asset entry; the requests processed before the
failure did get tasks spawned. -/
theorem claim_c10_drain_discards_on_failure (w : World)
    (pre post : List (ℕ × NavmeshSettings)) (idf : ℕ) (inq : NavmeshSettings)
    (b : NavmeshSettings → Except ℕ (List (WorldTransform × TriMesh))) (e : ℕ)
    (hq : w.queue = pre ++ (idf, inq) :: post)
    (hnd : (kv_keys w.queue ++ kv_keys w.tasks).Nodup)
    (hcase : w.backend = none ∨
      (w.backend = some b ∧ (∀ p ∈ pre, ∃ a, b p.2 = .ok a) ∧ b inq = .error e)) :
    (drain_queue_into_tasks w).queue = [] ∧
    (drain_queue_into_tasks w).navmeshes = w.navmeshes ∧
    (∀ q ∈ post, q.1 ∉ kv_keys (drain_queue_into_tasks w).tasks) ∧
    (∀ q ∈ post, q.1 ∉ (poll_tasks (drain_queue_into_tasks w)).2) ∧
    (∀ q ∈ post, kv_lookup (poll_tasks (drain_queue_into_tasks w)).1.navmeshes q.1 =
      kv_lookup w.navmeshes q.1) ∧
    (w.backend = some b ∧ (∀ p ∈ pre, ∃ a, b p.2 = .ok a) ∧ b inq = .error e →
      kv_keys (drain_queue_into_tasks w).tasks =
        kv_keys w.tasks ++ pre.map Prod.fst) := by
  have hfields := drain_go_fields w.queue { w with queue := [] }
  have hqueue : (drain_queue_into_tasks w).queue = [] := hfields.1
  have hnavs : (drain_queue_into_tasks w).navmeshes = w.navmeshes := hfields.2.1
  have hqk : kv_keys w.queue = pre.map Prod.fst ++ idf :: post.map Prod.fst := by
    rw [hq]
    simp [kv_keys]
  have hnds := List.nodup_append.mp hnd
  have hdisj : ∀ x ∈ kv_keys w.queue, x ∉ kv_keys w.tasks := hnds.2.2
  have hnq : (pre.map Prod.fst ++ idf :: post.map Prod.fst).Nodup := hqk ▸ hnds.1
  have hnqs := List.nodup_append.mp hnq
  have hpost_queue : ∀ q ∈ post, q.1 ∈ kv_keys w.queue := by
    intro q hqq
    rw [hqk]
    exact List.mem_append_right _ (List.mem_cons_of_mem _
      (List.mem_map.mpr ⟨q, hqq, rfl⟩))
  have hpost_notpre : ∀ q ∈ post, q.1 ∉ pre.map Prod.fst := by
    intro q hqq hc
    exact hnqs.2.2 hc (List.mem_cons_of_mem _ (List.mem_map.mpr ⟨q, hqq, rfl⟩))
  have hpre_queue : ∀ p ∈ pre, p.1 ∈ kv_keys w.queue := by
    intro p hp
    rw [hqk]
    exact List.mem_append_left _ (List.mem_map.mpr ⟨p, hp, rfl⟩)
  have htasks3 : ∀ q ∈ post, q.1 ∉ kv_keys (drain_queue_into_tasks w).tasks := by
    rcases hcase with hb | ⟨hb, hpre, herr⟩
    · have : drain_queue_into_tasks w = { w with queue := [] } :=
        drain_go_backend_none w.queue { w with queue := [] } hb
      rw [this]
      intro q hqq
      exact hdisj q.1 (hpost_queue q hqq)
    · have hkeys : kv_keys (drain_queue_into_tasks w).tasks =
          kv_keys w.tasks ++ pre.map Prod.fst := by
        unfold drain_queue_into_tasks
        rw [hq]
        exact drain_go_keys pre { w with queue := [] } idf inq post b e hb hpre herr
          (fun p hp => hdisj p.1 (hpre_queue p hp)) hnqs.1
      rw [hkeys]
      intro q hqq hc
      rcases List.mem_append.mp hc with hc1 | hc2
      · exact hdisj q.1 (hpost_queue q hqq) hc1
      · exact hpost_notpre q hqq hc2
  refine ⟨hqueue, hnavs, htasks3, ?_, ?_, ?_⟩
  · intro q hqq hc
    exact htasks3 q hqq (poll_events_sub_keys (drain_queue_into_tasks w) q.1 hc)
  · intro q hqq
    have h5 : kv_lookup ((drain_queue_into_tasks w).tasks.foldl insert_done_ok
        (drain_queue_into_tasks w).navmeshes) q.1 =
        kv_lookup (drain_queue_into_tasks w).navmeshes q.1 :=
      fold_insert_done_lookup_of_not_mem _ _ q.1 (htasks3 q hqq)
    have h6 : kv_lookup (drain_queue_into_tasks w).navmeshes q.1 =
        kv_lookup w.navmeshes q.1 := by rw [hnavs]
    exact h5.trans h6
  · intro ⟨hb, hpre, herr⟩
    unfold drain_queue_into_tasks
    rw [hq]
    exact drain_go_keys pre { w with queue := [] } idf inq post b e hb hpre herr
      (fun p hp => hdisj p.1 (hpre_queue p hp)) hnqs.1

/-- Witness for C10 at a concrete input. -/
theorem claim_c10_drain_discards_on_failure_witness :
    world10.queue = [(1, settings0)] ++ (2, settingsNoAabb) :: [(4, settingsVol)] ∧
    (kv_keys world10.queue ++ kv_keys world10.tasks).Nodup ∧
    (world10.backend = some backend10 ∧
      (∀ p ∈ [(1, settings0)], ∃ a, backend10 p.2 = .ok a) ∧
      backend10 settingsNoAabb = .error 7) ∧
    ((drain_queue_into_tasks world10).queue = [] ∧
     (drain_queue_into_tasks world10).navmeshes = world10.navmeshes ∧
     (∀ q ∈ [(4, settingsVol)], q.1 ∉ kv_keys (drain_queue_into_tasks world10).tasks) ∧
     (∀ q ∈ [(4, settingsVol)], q.1 ∉ (poll_tasks (drain_queue_into_tasks world10)).2) ∧
     (∀ q ∈ [(4, settingsVol)],
       kv_lookup (poll_tasks (drain_queue_into_tasks world10)).1.navmeshes q.1 =
         kv_lookup world10.navmeshes q.1) ∧
     (world10.backend = some backend10 ∧
        (∀ p ∈ [(1, settings0)], ∃ a, backend10 p.2 = .ok a) ∧
        backend10 settingsNoAabb = .error 7 →
      kv_keys (drain_queue_into_tasks world10).tasks =
        kv_keys world10.tasks ++ [(1, settings0)].map Prod.fst)) :=
  ⟨rfl, by decide,
   ⟨rfl, fun p hp => ⟨[], by
      rcases List.mem_singleton.mp hp with rfl
      show backend10 settings0 = .ok []
      unfold backend10
      rw [if_neg (by decide)]⟩,
    by
      show backend10 settingsNoAabb = .error 7
      unfold backend10
      rw [if_pos rfl]⟩,
   claim_c10_drain_discards_on_failure world10 [(1, settings0)] [(4, settingsVol)] 2
     settingsNoAabb backend10 7 rfl (by decide)
     (Or.inr ⟨rfl, fun p hp => ⟨[], by
        rcases List.mem_singleton.mp hp with rfl
        show backend10 settings0 = .ok []
        unfold backend10
        rw [if_neg (by decide)]⟩,
      by
        show backend10 settingsNoAabb = .error 7
        unfold backend10
        rw [if_pos rfl]⟩)⟩

/-- Witness for C6 at a concrete input (an id absent from both queues). -/
theorem claim_c6_regenerate_dedup_witness :
    world6.WF ∧
    ((3 ∈ kv_keys world6.queue ++ kv_keys world6.tasks →
        regenerate world6 3 settings0 = (false, world6)) ∧
     (3 ∉ kv_keys world6.queue ++ kv_keys world6.tasks →
        (regenerate world6 3 settings0).1 = true ∧
        (regenerate world6 3 settings0).2.queue = world6.queue ++ [(3, settings0)] ∧
        (regenerate world6 3 settings0).2.tasks = world6.tasks) ∧
     ((regenerate world6 3 settings0).2).WF ∧
     (kv_keys (regenerate world6 3 settings0).2.queue ++
       kv_keys (regenerate world6 3 settings0).2.tasks).count 3 ≤ 1) :=
  ⟨by unfold World.WF; decide,
   claim_c6_regenerate_dedup world6 3 settings0 (by unfold World.WF; decide)⟩

theorem dec_enc_nat (n : ℕ) : ∀ r : List ℕ, dec_nat (enc_nat n ++ r) = some (n, r) := by
  induction n using Nat.strong_induction_on with
  | _ n ih =>
    intro r
    unfold enc_nat
    split
    next h => simp [dec_nat, h]
    next h =>
      rw [List.cons_append]
      simp only [dec_nat]
      rw [if_neg (by omega)]
      rw [ih (n / 128) (by omega) r]
      simp only []
      have : n / 128 * 128 + (n % 128 + 128 - 128) = n := by omega
      rw [this]

theorem enc_nat_lt (n : ℕ) : ∀ b ∈ enc_nat n, b < 256 := by
  induction n using Nat.strong_induction_on with
  | _ n ih =>
    unfold enc_nat
    split
    next h =>
      intro b hb
      rcases List.mem_singleton.mp hb with rfl
      omega
    next h =>
      intro b hb
      rcases List.mem_cons.mp hb with rfl | hb2
      · omega
      · exact ih (n / 128) (by omega) b hb2

theorem dec_enc_int (i : ℤ) (r : List ℕ) : dec_int (enc_int i ++ r) = some (i, r) := by
  by_cases h : i < 0
  · simp only [enc_int, if_pos h, List.cons_append, dec_int, dec_enc_nat]
    simp
    rw [abs_of_neg h]
    simp
  · simp only [enc_int, if_neg h, List.cons_append, dec_int, dec_enc_nat]
    simp
    omega

theorem enc_int_lt (i : ℤ) : ∀ b ∈ enc_int i, b < 256 := by
  unfold enc_int
  intro b hb
  rcases List.mem_cons.mp hb with rfl | hb2
  · split <;> omega
  · exact enc_nat_lt i.natAbs b hb2

theorem dec_enc_rat (q : ℚ) (r : List ℕ) : dec_rat (enc_rat q ++ r) = some (q, r) := by
  simp only [enc_rat, dec_rat, List.append_assoc, dec_enc_int, dec_enc_nat]
  rw [Rat.mkRat_self]

theorem enc_rat_lt (q : ℚ) : ∀ b ∈ enc_rat q, b < 256 := by
  unfold enc_rat
  intro b hb
  rcases List.mem_append.mp hb with h | h
  · exact enc_int_lt q.num b h
  · exact enc_nat_lt q.den b h

theorem bytes_lt_append {l1 l2 : List ℕ} (h1 : ∀ b ∈ l1, b < 256)
    (h2 : ∀ b ∈ l2, b < 256) : ∀ b ∈ l1 ++ l2, b < 256 := by
  intro b hb
  rcases List.mem_append.mp hb with h | h
  · exact h1 b h
  · exact h2 b h

theorem dec_count_enc_all {α : Type} (dec : List ℕ → Option (α × List ℕ))
    (enc : α → List ℕ) (l : List α)
    (h : ∀ a ∈ l, ∀ r : List ℕ, dec (enc a ++ r) = some (a, r)) :
    ∀ r : List ℕ, dec_count dec l.length (enc_all enc l ++ r) = some (l, r) := by
  induction l with
  | nil =>
    intro r
    simp [enc_all, dec_count]
  | cons a rest ih =>
    intro r
    show dec_count dec (rest.length + 1) ((enc a ++ enc_all enc rest) ++ r) = _
    have h1 := h a (List.mem_cons_self _ _) (enc_all enc rest ++ r)
    have h2 := ih (fun x hx => h x (List.mem_cons_of_mem _ hx)) r
    simp only [dec_count, List.append_assoc, h1, h2]

theorem dec_enc_list {α : Type} (dec : List ℕ → Option (α × List ℕ))
    (enc : α → List ℕ) (l : List α)
    (h : ∀ a ∈ l, ∀ r : List ℕ, dec (enc a ++ r) = some (a, r)) (r : List ℕ) :
    dec_list dec (enc_list enc l ++ r) = some (l, r) := by
  unfold enc_list dec_list
  rw [List.append_assoc, dec_enc_nat l.length]
  exact dec_count_enc_all dec enc l h r

theorem enc_all_lt {α : Type} (enc : α → List ℕ) (l : List α)
    (h : ∀ a ∈ l, ∀ b ∈ enc a, b < 256) : ∀ b ∈ enc_all enc l, b < 256 := by
  induction l with
  | nil => intro b hb; cases hb
  | cons a rest ih =>
    exact bytes_lt_append (h a (List.mem_cons_self _ _))
      (ih (fun x hx => h x (List.mem_cons_of_mem _ hx)))

theorem enc_list_lt {α : Type} (enc : α → List ℕ) (l : List α)
    (h : ∀ a ∈ l, ∀ b ∈ enc a, b < 256) : ∀ b ∈ enc_list enc l, b < 256 :=
  bytes_lt_append (enc_nat_lt _) (enc_all_lt enc l h)

theorem dec_enc_option {α : Type} (dec : List ℕ → Option (α × List ℕ))
    (enc : α → List ℕ) (o : Option α)
    (h : ∀ a, ∀ r : List ℕ, dec (enc a ++ r) = some (a, r)) (r : List ℕ) :
    dec_option dec (enc_option enc o ++ r) = some (o, r) := by
  cases o with
  | none => simp [enc_option, dec_option]
  | some a =>
    show dec_option dec (1 :: (enc a ++ r)) = some (some a, r)
    simp only [dec_option]
    rw [if_neg (by omega), h a r]

theorem enc_option_lt {α : Type} (enc : α → List ℕ) (o : Option α)
    (h : ∀ a, ∀ b ∈ enc a, b < 256) : ∀ b ∈ enc_option enc o, b < 256 := by
  cases o with
  | none =>
    intro b hb
    rcases List.mem_singleton.mp hb with rfl
    omega
  | some a =>
    intro b hb
    rcases List.mem_cons.mp hb with rfl | hb2
    · omega
    · exact h a b hb2

theorem dec_enc_vec3 (v : Vec3) (r : List ℕ) : dec_vec3 (enc_vec3 v ++ r) = some (v, r) := by
  simp only [enc_vec3, dec_vec3, List.append_assoc, dec_enc_rat]

theorem dec_enc_u16vec3 (v : U16Vec3) (r : List ℕ) :
    dec_u16vec3 (enc_u16vec3 v ++ r) = some (v, r) := by
  simp only [enc_u16vec3, dec_u16vec3, List.append_assoc, dec_enc_nat]

theorem dec_enc_tri (t : ℕ × ℕ × ℕ) (r : List ℕ) :
    dec_tri (enc_tri t ++ r) = some (t, r) := by
  simp only [enc_tri, dec_tri, List.append_assoc, dec_enc_nat]

theorem dec_enc_tet (t : ℕ × ℕ × ℕ × ℕ) (r : List ℕ) :
    dec_tet (enc_tet t ++ r) = some (t, r) := by
  simp only [enc_tet, dec_tet, List.append_assoc, dec_enc_nat]

theorem dec_enc_aabb (a : Aabb3d) (r : List ℕ) :
    dec_aabb (enc_aabb a ++ r) = some (a, r) := by
  simp only [enc_aabb, dec_aabb, List.append_assoc, dec_enc_vec3]

theorem dec_enc_list_nat (l : List ℕ) (r : List ℕ) :
    dec_list dec_nat (enc_list enc_nat l ++ r) = some (l, r) :=
  dec_enc_list _ _ l (fun a _ => dec_enc_nat a) r

theorem dec_enc_list_vec3 (l : List Vec3) (r : List ℕ) :
    dec_list dec_vec3 (enc_list enc_vec3 l ++ r) = some (l, r) :=
  dec_enc_list _ _ l (fun a _ => dec_enc_vec3 a) r

theorem dec_enc_list_u16vec3 (l : List U16Vec3) (r : List ℕ) :
    dec_list dec_u16vec3 (enc_list enc_u16vec3 l ++ r) = some (l, r) :=
  dec_enc_list _ _ l (fun a _ => dec_enc_u16vec3 a) r

theorem dec_enc_list_tri (l : List (ℕ × ℕ × ℕ)) (r : List ℕ) :
    dec_list dec_tri (enc_list enc_tri l ++ r) = some (l, r) :=
  dec_enc_list _ _ l (fun a _ => dec_enc_tri a) r

theorem dec_enc_list_tet (l : List (ℕ × ℕ × ℕ × ℕ)) (r : List ℕ) :
    dec_list dec_tet (enc_list enc_tet l ++ r) = some (l, r) :=
  dec_enc_list _ _ l (fun a _ => dec_enc_tet a) r

theorem dec_enc_list_natlist (l : List (List ℕ)) (r : List ℕ) :
    dec_list (dec_list dec_nat) (enc_list (enc_list enc_nat) l ++ r) = some (l, r) :=
  dec_enc_list _ _ l (fun a _ => dec_enc_list_nat a) r

theorem dec_enc_option_nat (o : Option ℕ) (r : List ℕ) :
    dec_option dec_nat (enc_option enc_nat o ++ r) = some (o, r) :=
  dec_enc_option _ _ o (fun a r2 => dec_enc_nat a r2) r

theorem dec_enc_list_optnat (l : List (Option ℕ)) (r : List ℕ) :
    dec_list (dec_option dec_nat) (enc_list (enc_option enc_nat) l ++ r) = some (l, r) :=
  dec_enc_list _ _ l (fun a _ => dec_enc_option_nat a) r

theorem dec_enc_list_optnatlist (l : List (List (Option ℕ))) (r : List ℕ) :
    dec_list (dec_list (dec_option dec_nat))
      (enc_list (enc_list (enc_option enc_nat)) l ++ r) = some (l, r) :=
  dec_enc_list _ _ l (fun a _ => dec_enc_list_optnat a) r

theorem dec_enc_option_aabb (o : Option Aabb3d) (r : List ℕ) :
    dec_option dec_aabb (enc_option enc_aabb o ++ r) = some (o, r) :=
  dec_enc_option _ _ o (fun a r2 => dec_enc_aabb a r2) r

theorem dec_enc_area_volume (v : AreaVolume) (r : List ℕ) :
    dec_area_volume (enc_area_volume v ++ r) = some (v, r) := by
  simp only [enc_area_volume, dec_area_volume, List.append_assoc, dec_enc_list_vec3,
    dec_enc_rat, dec_enc_nat]

theorem dec_enc_list_area_volume (l : List AreaVolume) (r : List ℕ) :
    dec_list dec_area_volume (enc_list enc_area_volume l ++ r) = some (l, r) :=
  dec_enc_list _ _ l (fun a _ => dec_enc_area_volume a) r

theorem dec_enc_poly (p : PolygonNavmesh) (r : List ℕ) :
    dec_poly (enc_poly p ++ r) = some (p, r) := by
  simp only [enc_poly, dec_poly, List.append_assoc, dec_enc_list_u16vec3,
    dec_enc_list_natlist, dec_enc_list_optnatlist, dec_enc_list_nat, dec_enc_aabb,
    dec_enc_rat, dec_enc_nat]

theorem dec_enc_detail (d : DetailNavmesh) (r : List ℕ) :
    dec_detail (enc_detail d ++ r) = some (d, r) := by
  simp only [enc_detail, dec_detail, List.append_assoc, dec_enc_list_tet,
    dec_enc_list_vec3, dec_enc_list_tri]

theorem dec_enc_settings (s : NavmeshSettings) (r : List ℕ) :
    dec_settings (enc_settings s ++ r) = some (s, r) := by
  simp only [enc_settings, dec_settings, List.append_assoc, dec_enc_rat, dec_enc_nat,
    dec_enc_option_aabb, dec_enc_list_area_volume, dec_enc_vec3, dec_enc_option_nat]

theorem dec_enc_navmesh (n : Navmesh) (r : List ℕ) :
    dec_navmesh (enc_navmesh n ++ r) = some (n, r) := by
  simp only [enc_navmesh, dec_navmesh, List.append_assoc, dec_enc_poly, dec_enc_detail,
    dec_enc_settings]

theorem enc_vec3_lt (v : Vec3) : ∀ b ∈ enc_vec3 v, b < 256 := by
  unfold enc_vec3
  exact bytes_lt_append (bytes_lt_append (enc_rat_lt _) (enc_rat_lt _)) (enc_rat_lt _)

theorem enc_u16vec3_lt (v : U16Vec3) : ∀ b ∈ enc_u16vec3 v, b < 256 := by
  unfold enc_u16vec3
  exact bytes_lt_append (bytes_lt_append (enc_nat_lt _) (enc_nat_lt _)) (enc_nat_lt _)

theorem enc_tri_lt (t : ℕ × ℕ × ℕ) : ∀ b ∈ enc_tri t, b < 256 := by
  unfold enc_tri
  exact bytes_lt_append (bytes_lt_append (enc_nat_lt _) (enc_nat_lt _)) (enc_nat_lt _)

theorem enc_tet_lt (t : ℕ × ℕ × ℕ × ℕ) : ∀ b ∈ enc_tet t, b < 256 := by
  unfold enc_tet
  exact bytes_lt_append (bytes_lt_append (bytes_lt_append (enc_nat_lt _) (enc_nat_lt _)) (enc_nat_lt _)) (enc_nat_lt _)

theorem enc_aabb_lt (a : Aabb3d) : ∀ b ∈ enc_aabb a, b < 256 := by
  unfold enc_aabb
  exact bytes_lt_append (enc_vec3_lt _) (enc_vec3_lt _)

theorem enc_area_volume_lt (v : AreaVolume) : ∀ b ∈ enc_area_volume v, b < 256 := by
  unfold enc_area_volume
  exact bytes_lt_append (bytes_lt_append (bytes_lt_append (enc_list_lt _ _ (fun a _ => enc_vec3_lt a)) (enc_rat_lt _)) (enc_rat_lt _)) (enc_nat_lt _)

theorem enc_poly_lt (p : PolygonNavmesh) : ∀ b ∈ enc_poly p, b < 256 := by
  unfold enc_poly
  exact bytes_lt_append (bytes_lt_append (bytes_lt_append (bytes_lt_append (bytes_lt_append (bytes_lt_append (bytes_lt_append (bytes_lt_append (enc_list_lt _ _ (fun a _ => enc_u16vec3_lt a)) (enc_list_lt _ _ (fun a _ => enc_list_lt _ _ (fun x _ => enc_nat_lt x)))) (enc_list_lt _ _ (fun a _ => enc_list_lt _ _ (fun x _ => enc_option_lt _ x (fun y => enc_nat_lt y))))) (enc_list_lt _ _ (fun a _ => enc_nat_lt a))) (enc_list_lt _ _ (fun a _ => enc_nat_lt a))) (enc_aabb_lt _)) (enc_rat_lt _)) (enc_rat_lt _)) (enc_nat_lt _)

theorem enc_detail_lt (d : DetailNavmesh) : ∀ b ∈ enc_detail d, b < 256 := by
  unfold enc_detail
  exact bytes_lt_append (bytes_lt_append (enc_list_lt _ _ (fun a _ => enc_tet_lt a)) (enc_list_lt _ _ (fun a _ => enc_vec3_lt a))) (enc_list_lt _ _ (fun a _ => enc_tri_lt a))

theorem enc_settings_lt (s : NavmeshSettings) : ∀ b ∈ enc_settings s, b < 256 := by
  unfold enc_settings
  exact bytes_lt_append (bytes_lt_append (bytes_lt_append (bytes_lt_append (bytes_lt_append (bytes_lt_append (bytes_lt_append (bytes_lt_append (bytes_lt_append (bytes_lt_append (bytes_lt_append (bytes_lt_append (bytes_lt_append (bytes_lt_append (bytes_lt_append (bytes_lt_append (bytes_lt_append (enc_rat_lt _) (enc_rat_lt _)) (enc_rat_lt _)) (enc_rat_lt _)) (enc_rat_lt _)) (enc_rat_lt _)) (enc_nat_lt _)) (enc_nat_lt _)) (enc_nat_lt _)) (enc_rat_lt _)) (enc_rat_lt _)) (enc_nat_lt _)) (enc_rat_lt _)) (enc_rat_lt _)) (enc_option_lt _ _ (fun a => enc_aabb_lt a))) (enc_list_lt _ _ (fun a _ => enc_area_volume_lt a))) (enc_vec3_lt _)) (enc_option_lt _ _ (fun a => enc_nat_lt a))

theorem enc_navmesh_lt (n : Navmesh) : ∀ b ∈ enc_navmesh n, b < 256 := by
  unfold enc_navmesh
  exact bytes_lt_append (bytes_lt_append (enc_poly_lt _) (enc_detail_lt _)) (enc_settings_lt _)

theorem b64_dec_char_fin : ∀ i : Fin 64, b64_dec_char (b64_char i.val) = some i.val := by
  decide

theorem b64_char_ne_pad_fin : ∀ i : Fin 64, b64_char i.val ≠ '=' := by
  decide

theorem b64_dec_char_lt (n : ℕ) (h : n < 64) : b64_dec_char (b64_char n) = some n :=
  b64_dec_char_fin ⟨n, h⟩

theorem b64_char_ne_pad (n : ℕ) (h : n < 64) : b64_char n ≠ '=' :=
  b64_char_ne_pad_fin ⟨n, h⟩

theorem b64_roundtrip :
    ∀ l : List ℕ, (∀ b ∈ l, b < 256) → b64_decode (b64_encode l) = some l
  | [], _ => rfl
  | [a], h => by
    have ha : a < 256 := h a (by simp)
    simp only [b64_encode, b64_decode,
      b64_dec_char_lt (a / 4) (by omega),
      b64_dec_char_lt ((a % 4) * 16) (by omega)]
    rw [if_pos (by simp)]
    have : a / 4 * 4 + (a % 4) * 16 / 16 = a := by omega
    rw [this]
  | [a, b], h => by
    have ha : a < 256 := h a (by simp)
    have hb : b < 256 := h b (by simp)
    simp only [b64_encode, b64_decode,
      b64_dec_char_lt (a / 4) (by omega),
      b64_dec_char_lt ((a % 4) * 16 + b / 16) (by omega),
      b64_dec_char_lt ((b % 16) * 4) (by omega)]
    rw [if_neg (fun hc => b64_char_ne_pad ((b % 16) * 4) (by omega) hc.1)]
    rw [if_pos (by simp)]
    have h1 : a / 4 * 4 + ((a % 4) * 16 + b / 16) / 16 = a := by omega
    have h2 : ((a % 4) * 16 + b / 16) % 16 * 16 + (b % 16) * 4 / 4 = b := by omega
    rw [h1, h2]
  | a :: b :: c :: rest, h => by
    have ha : a < 256 := h a (by simp)
    have hb : b < 256 := h b (by simp)
    have hc : c < 256 := h c (by simp)
    have hrest : ∀ x ∈ rest, x < 256 := by
      intro x hx
      exact h x (by simp [hx])
    have ih := b64_roundtrip rest hrest
    simp only [b64_encode, b64_decode,
      b64_dec_char_lt (a / 4) (by omega),
      b64_dec_char_lt ((a % 4) * 16 + b / 16) (by omega),
      b64_dec_char_lt ((b % 16) * 4 + c / 64) (by omega),
      b64_dec_char_lt (c % 64) (by omega)]
    rw [if_neg (fun hcon => b64_char_ne_pad ((b % 16) * 4 + c / 64) (by omega) hcon.1)]
    rw [if_neg (fun hcon => b64_char_ne_pad (c % 64) (by omega) hcon.1)]
    rw [ih]
    have h1 : a / 4 * 4 + ((a % 4) * 16 + b / 16) / 16 = a := by omega
    have h2 : ((a % 4) * 16 + b / 16) % 16 * 16 + ((b % 16) * 4 + c / 64) / 4 = b := by
      omega
    have h3 : ((b % 16) * 4 + c / 64) % 4 * 64 + c % 64 = c := by omega
    rw [h1, h2, h3]

theorem rat_json_rt (q : ℚ) : rat_from_json (rat_to_json q) = some q := rfl

theorem nat_json_rt (n : ℕ) : nat_from_json (nat_to_json n) = some n := by
  simp [nat_to_json, nat_from_json]

theorem option_json_rt {α : Type} (f : α → Json) (g : Json → Option α) (o : Option α)
    (hnn : ∀ a, f a ≠ Json.null) (h : ∀ a, g (f a) = some a) :
    option_from_json g (option_to_json f o) = some o := by
  cases o with
  | none => rfl
  | some a =>
    have hga := h a
    show option_from_json g (f a) = some (some a)
    cases hfa : f a <;> simp_all [option_from_json]

theorem list_json_rt {α : Type} (f : α → Json) (g : Json → Option α) (l : List α)
    (h : ∀ a ∈ l, g (f a) = some a) :
    list_from_json g (list_to_json f l) = some l := by
  show list_from_json_aux g (l.map f) = some l
  induction l with
  | nil => rfl
  | cons a rest ih =>
    have h1 := h a (List.mem_cons_self _ _)
    have h2 := ih (fun x hx => h x (List.mem_cons_of_mem _ hx))
    simp only [List.map_cons, list_from_json_aux, h1, h2]

theorem vec3_json_rt (v : Vec3) : vec3_from_json (vec3_to_json v) = some v := rfl

theorem u16vec3_json_rt (v : U16Vec3) : u16vec3_from_json (u16vec3_to_json v) = some v := by
  simp only [u16vec3_to_json, u16vec3_from_json, nat_json_rt]

theorem tri_json_rt (t : ℕ × ℕ × ℕ) : tri_from_json (tri_to_json t) = some t := by
  simp only [tri_to_json, tri_from_json, nat_json_rt]

theorem tet_json_rt (t : ℕ × ℕ × ℕ × ℕ) : tet_from_json (tet_to_json t) = some t := by
  simp only [tet_to_json, tet_from_json, nat_json_rt]

theorem aabb_json_rt (x : Aabb3d) : aabb_from_json (aabb_to_json x) = some x := by
  simp only [aabb_to_json, aabb_from_json]
  rw [if_pos (by simp)]
  simp only [vec3_json_rt]

theorem optaabb_json_rt (o : Option Aabb3d) :
    option_from_json aabb_from_json (option_to_json aabb_to_json o) = some o :=
  option_json_rt _ _ o (fun a => by simp [aabb_to_json]) (fun a => aabb_json_rt a)

theorem optnat_json_rt (o : Option ℕ) :
    option_from_json nat_from_json (option_to_json nat_to_json o) = some o :=
  option_json_rt _ _ o (fun a => by simp [nat_to_json]) (fun a => nat_json_rt a)

theorem list_vec3_json_rt (l : List Vec3) :
    list_from_json vec3_from_json (list_to_json vec3_to_json l) = some l :=
  list_json_rt _ _ l (fun a _ => vec3_json_rt a)

theorem list_u16vec3_json_rt (l : List U16Vec3) :
    list_from_json u16vec3_from_json (list_to_json u16vec3_to_json l) = some l :=
  list_json_rt _ _ l (fun a _ => u16vec3_json_rt a)

theorem list_tri_json_rt (l : List (ℕ × ℕ × ℕ)) :
    list_from_json tri_from_json (list_to_json tri_to_json l) = some l :=
  list_json_rt _ _ l (fun a _ => tri_json_rt a)

theorem list_tet_json_rt (l : List (ℕ × ℕ × ℕ × ℕ)) :
    list_from_json tet_from_json (list_to_json tet_to_json l) = some l :=
  list_json_rt _ _ l (fun a _ => tet_json_rt a)

theorem list_nat_json_rt (l : List ℕ) :
    list_from_json nat_from_json (list_to_json nat_to_json l) = some l :=
  list_json_rt _ _ l (fun a _ => nat_json_rt a)

theorem list_natlist_json_rt (l : List (List ℕ)) :
    list_from_json (list_from_json nat_from_json)
      (list_to_json (list_to_json nat_to_json) l) = some l :=
  list_json_rt _ _ l (fun a _ => list_nat_json_rt a)

theorem list_optnat_json_rt (l : List (Option ℕ)) :
    list_from_json (option_from_json nat_from_json)
      (list_to_json (option_to_json nat_to_json) l) = some l :=
  list_json_rt _ _ l (fun a _ => optnat_json_rt a)

theorem list_optnatlist_json_rt (l : List (List (Option ℕ))) :
    list_from_json (list_from_json (option_from_json nat_from_json))
      (list_to_json (list_to_json (option_to_json nat_to_json)) l) = some l :=
  list_json_rt _ _ l (fun a _ => list_optnat_json_rt a)

theorem area_volume_json_rt (x : AreaVolume) : area_volume_from_json (area_volume_to_json x) = some x := by
  simp only [area_volume_to_json, area_volume_from_json]
  rw [if_pos (by simp)]
  simp only [list_vec3_json_rt, rat_json_rt, nat_json_rt]

theorem list_area_volume_json_rt (l : List AreaVolume) :
    list_from_json area_volume_from_json (list_to_json area_volume_to_json l) = some l :=
  list_json_rt _ _ l (fun a _ => area_volume_json_rt a)

theorem poly_json_rt (x : PolygonNavmesh) : poly_from_json (poly_to_json x) = some x := by
  simp only [poly_to_json, poly_from_json]
  rw [if_pos (by simp)]
  simp only [list_u16vec3_json_rt, list_natlist_json_rt, list_optnatlist_json_rt, list_nat_json_rt, aabb_json_rt, rat_json_rt, nat_json_rt]

theorem detail_json_rt (x : DetailNavmesh) : detail_from_json (detail_to_json x) = some x := by
  simp only [detail_to_json, detail_from_json]
  rw [if_pos (by simp)]
  simp only [list_tet_json_rt, list_vec3_json_rt, list_tri_json_rt]

theorem settings_json_rt (x : NavmeshSettings) : settings_from_json (settings_to_json x) = some x := by
  simp only [settings_to_json, settings_from_json]
  rw [if_pos (by simp)]
  simp only [rat_json_rt, nat_json_rt, optaabb_json_rt, list_area_volume_json_rt, vec3_json_rt, optnat_json_rt]

theorem nav_json_rt (x : Navmesh) : nav_from_json (nav_to_json x) = some x := by
  simp only [nav_to_json, nav_from_json]
  rw [if_pos (by simp)]
  simp only [poly_json_rt, detail_json_rt, settings_json_rt]

/-- Claim C8: both persisted encodings are lossless round-trips for every
field of the `Navmesh` value — deserializing the editor-integration
serialization (bincode standard config wrapped in base64) yields the
original value, and parsing the structured-text (JSON) encoding as read by
the `.nav` asset loader yields the original value. The `f32` scalars are
modelled as exact rationals; the byte and text encoders of the external
`bincode`/`base64`/`serde_json` crates are modelled from the spec
("length-prefixed binary encoding (standard config)", base64 wrapping, and
the serde value mapping). -/
theorem claim_c8_persisted_encodings_lossless (n : Navmesh) :
    deserialize (serialize n) = some n ∧ nav_from_json (nav_to_json n) = some n := by
  constructor
  · have h := dec_enc_navmesh n []
    rw [List.append_nil] at h
    simp only [serialize, deserialize,
      b64_roundtrip (enc_navmesh n) (enc_navmesh_lt n), h]
  · exact nav_json_rt n
